import Mathlib

/-!
Aston battery miniclass driver

A shallow embedding of `AstonBattery/miniclass.c` (the battery miniclass callbacks of
the OnePlus "aston" fuel-gauge driver) together with theorems about it.

Conventions of the embedding

* C integers are natural numbers; every arithmetic result is reduced modulo the width
  of the C type that holds it (`ULONG` is 32 bits, `UINT16` 16 bits, `UCHAR` 8 bits).
  `LONG` fields are kept as their 32-bit two's-complement pattern.
* `NTSTATUS` is kept as its unsigned 32-bit pattern; `NT_SUCCESS` tests the sign bit.
* The device extension is passed explicitly and returned by every routine.  It carries
  one ghost field, `Trace`, that records lock operations, accesses to `BatteryTag` and
  register reads in program order.
* The fuel gauge is a parameter: `SPB_CONTEXT.Device n a` is the reply to a read of
  register `a` when `n` reads have been issued before it.
* Memory that the caller hands in (`Buffer`, `ReturnedLength`, `BatteryStatus`) is an
  explicit argument holding its prior content and an explicit result holding its
  content on return.  A `PVOID` is `Option Region`; `none` is `NULL`.
-/

namespace AstonBattery

/-! ## Machine types and constants of the Windows headers -/

/-! An `NTSTATUS`, a `ULONG`, a `UINT16` and a `UCHAR` are all of type `Nat` below and
a `LONG` argument is an `Int`; the C type of each field and variable is the one of the
source and decides the modulus of every operation on it. -/

/-- Two to the thirty-second: the modulus of `ULONG` arithmetic. -/
def ULONG_MOD : Nat := 4294967296

/-- From `ntstatus.h`. -/
def STATUS_SUCCESS : Nat := 0x00000000
/-- From `ntstatus.h`. -/
def STATUS_INVALID_PARAMETER : Nat := 0xC000000D
/-- From `ntstatus.h`. -/
def STATUS_NO_SUCH_DEVICE : Nat := 0xC000000E
/-- From `ntstatus.h`. -/
def STATUS_INVALID_DEVICE_REQUEST : Nat := 0xC0000010
/-- From `ntstatus.h`. -/
def STATUS_BUFFER_TOO_SMALL : Nat := 0xC0000023
/-- From `ntstatus.h`. -/
def STATUS_NOT_SUPPORTED : Nat := 0xC00000BB
/-- From `ntstatus.h`. -/
def STATUS_INVALID_PARAMETER_4 : Nat := 0xC00000F2
/-- From `ntstatus.h`; used as a sample bus failure. -/
def STATUS_IO_DEVICE_ERROR : Nat := 0xC0000185

/-- The test `((NTSTATUS)(Status)) >= 0` of `ntdef.h`: the sign bit of the 32-bit
pattern is clear. -/
def NT_SUCCESS (Status : Nat) : Bool := Status % ULONG_MOD < 2147483648

/-- From `batclass.h`. -/
def BATTERY_TAG_INVALID : Nat := 0
/-- From `batclass.h`. -/
def BATTERY_UNKNOWN_TIME : Nat := 0xFFFFFFFF
/-- From `batclass.h`. -/
def BATTERY_SYSTEM_BATTERY : Nat := 0x80000000
/-- From `batclass.h`. -/
def BATTERY_SET_CHARGE_SUPPORTED : Nat := 0x00000001
/-- From `batclass.h`. -/
def BATTERY_SET_DISCHARGE_SUPPORTED : Nat := 0x00000002
/-- From `batclass.h`. -/
def BATTERY_SET_CHARGINGSOURCE_SUPPORTED : Nat := 0x00000004
/-- From `batclass.h`. -/
def BATTERY_SET_CHARGER_ID_SUPPORTED : Nat := 0x00000008
/-- From `batclass.h`. -/
def BATTERY_DISCHARGING : Nat := 0x00000002
/-- From `batclass.h`: number of `WCHAR`s of a battery string. -/
def MAX_BATTERY_STRING_SIZE : Nat := 128

/-! `BATTERY_QUERY_INFORMATION_LEVEL` of `batclass.h`.  A C enumeration is an `int`,
so a level is an arbitrary integer and the enumerators are nine of its values. -/

def BatteryInformation : Int := 0
def BatteryGranularityInformation : Int := 1
def BatteryTemperature : Int := 2
def BatteryEstimatedTime : Int := 3
def BatteryDeviceName : Int := 4
def BatteryManufactureDate : Int := 5
def BatteryManufactureName : Int := 6
def BatteryUniqueID : Int := 7
def BatterySerialNumber : Int := 8

/-! `BATTERY_SET_INFORMATION_LEVEL` of `batclass.h`. -/

def BatteryCriticalBias : Int := 0
def BatteryCharge : Int := 1
def BatteryDischarge : Int := 2
def BatteryChargingSource : Int := 3
def BatteryChargerId : Int := 4
def BatteryChargerStatus : Int := 5

/-! ## Records of `batclass.h` -/

/-- The record `BATTERY_INFORMATION` (36 bytes). -/
structure BATTERY_INFORMATION where
  Capabilities : Nat
  Technology : Nat
  Reserved : List Nat
  Chemistry : List Nat
  DesignedCapacity : Nat
  FullChargedCapacity : Nat
  DefaultAlert1 : Nat
  DefaultAlert2 : Nat
  CriticalBias : Nat
  CycleCount : Nat
  deriving DecidableEq, Repr

/-- The record `BATTERY_REPORTING_SCALE` (8 bytes). -/
structure BATTERY_REPORTING_SCALE where
  Granularity : Nat
  Capacity : Nat
  deriving DecidableEq, Repr

/-- The record `BATTERY_MANUFACTURE_DATE` (4 bytes). -/
structure BATTERY_MANUFACTURE_DATE where
  Day : Nat
  Month : Nat
  Year : Nat
  deriving DecidableEq, Repr

/-- The record `BATTERY_STATUS` (16 bytes); `Rate` is a `LONG`, kept as its 32-bit
pattern. -/
structure BATTERY_STATUS where
  PowerState : Nat
  Capacity : Nat
  Voltage : Nat
  Rate : Nat
  deriving DecidableEq, Repr

def sizeof_BATTERY_INFORMATION : Nat := 36
def sizeof_BATTERY_REPORTING_SCALE : Nat := 8
def sizeof_BATTERY_MANUFACTURE_DATE : Nat := 4
def sizeof_ULONG : Nat := 4
def sizeof_WCHAR : Nat := 2

/-- What a `PVOID` of this driver can point at, viewed as a value: one of the locals
that `ReturnBuffer` is aimed at, or caller memory of unknown shape. -/
inductive Region where
  | Information (Value : BATTERY_INFORMATION)
  | Ulong (Value : Nat)
  | WideString (Chars : List Nat)
  | ManufactureDate (Value : BATTERY_MANUFACTURE_DATE)
  | ReportingScale (Value : BATTERY_REPORTING_SCALE)
  | Raw (Bytes : List Nat)
  deriving DecidableEq, Repr

/-- The effect of `memcpy(Buffer, Source, Length)` on what `Buffer` holds: the first
`Length` bytes of the source.  Every fixed-size local is copied whole (its `Length` is
its `sizeof`); of the `WCHAR` array only the first `Length / 2` elements are copied. -/
def memcpy (Source : Region) (Length : Nat) : Region :=
  match Source with
  | .WideString Chars => .WideString (Chars.take (Length / sizeof_WCHAR))
  | .Raw Bytes => .Raw (Bytes.take Length)
  | r => r

/-! ## Device extension, ghost trace and the bus -/

/-- Observable steps of a routine, in program order (ghost). -/
inductive Event where
  | LockAcquire
  | LockRelease
  | TagRead
  | TagWrite
  | SpbRead (Address : Nat) (Length : Nat)
  deriving DecidableEq, Repr

/-- Reply of the fuel gauge to one register read: the status of the transfer and,
when it succeeded, the bytes read, as a little-endian number. -/
structure SpbReply where
  Status : Nat
  Data : Nat
  deriving DecidableEq, Repr

/-- The bus context `SPB_CONTEXT`.  `Device n a` is the reply of the gauge to a read
of register `a` issued after `n` earlier reads; `Reads` counts the reads issued. -/
structure SPB_CONTEXT where
  Device : Nat → Nat → SpbReply
  Reads : Nat

/-- The device extension `SURFACE_BATTERY_FDO_DATA`: the wait lock (held or not), the
battery tag and the bus context, with the ghost trace. -/
structure SURFACE_BATTERY_FDO_DATA where
  StateLock : Bool
  BatteryTag : Nat
  I2CContext : SPB_CONTEXT
  Trace : List Event

/-- Append one event to the ghost trace. -/
def Record (DevExt : SURFACE_BATTERY_FDO_DATA) (e : Event) : SURFACE_BATTERY_FDO_DATA :=
  { DevExt with Trace := DevExt.Trace ++ [e] }

/-- The call `WdfWaitLockAcquire(DevExt->StateLock, NULL)`. -/
def WdfWaitLockAcquire (DevExt : SURFACE_BATTERY_FDO_DATA) : SURFACE_BATTERY_FDO_DATA :=
  Record { DevExt with StateLock := true } .LockAcquire

/-- The call `WdfWaitLockRelease(DevExt->StateLock)`. -/
def WdfWaitLockRelease (DevExt : SURFACE_BATTERY_FDO_DATA) : SURFACE_BATTERY_FDO_DATA :=
  Record { DevExt with StateLock := false } .LockRelease

/-- A read of `DevExt->BatteryTag`. -/
def LoadBatteryTag (DevExt : SURFACE_BATTERY_FDO_DATA) : Nat × SURFACE_BATTERY_FDO_DATA :=
  (DevExt.BatteryTag, Record DevExt .TagRead)

/-- A write of `DevExt->BatteryTag`. -/
def StoreBatteryTag (DevExt : SURFACE_BATTERY_FDO_DATA) (Value : Nat) :
    SURFACE_BATTERY_FDO_DATA :=
  Record { DevExt with BatteryTag := Value } .TagWrite

/-- Modelled from the spec: `SpbReadDataSynchronously` lives in `Spb.c`, which is not
part of the sources at hand.  Per the interface `read_register(address, width) ->
Result<RawValue, BusError>` it performs one synchronous read of `Length` bytes at
register `Address` and either yields the bytes or fails with the status of the bus.
The routine returns the reply; storing the bytes into the destination is done by the
caller below (see `StoreBytes`), and only when the status is a success. -/
def SpbReadDataSynchronously (DevExt : SURFACE_BATTERY_FDO_DATA) (Address : Nat)
    (Length : Nat) : SpbReply × SURFACE_BATTERY_FDO_DATA :=
  let Reply := DevExt.I2CContext.Device DevExt.I2CContext.Reads Address
  (Reply,
   Record { DevExt with I2CContext := { DevExt.I2CContext with Reads := DevExt.I2CContext.Reads + 1 } }
     (.SpbRead Address Length))

/-- Content of an integer variable holding `Old` after `Length` bytes of `Data` were
stored at its address (little-endian): the low `Length` bytes are replaced, the
higher bytes of the variable keep what they held. -/
def StoreBytes (Old : Nat) (Data : Nat) (Length : Nat) : Nat :=
  Old / 2 ^ (8 * Length) * 2 ^ (8 * Length) + Data % 2 ^ (8 * Length)

/-! ## `miniclass.c` -/

/-- The definition `#define AstonBatteryConvertMAHToMWH(Value) ((Value) * 9)`, on
`ULONG` operands. -/
def AstonBatteryConvertMAHToMWH (Value : Nat) : Nat := (Value * 9) % ULONG_MOD

/-- The routine `AstonBatteryUpdateTag`:
`DevExt->BatteryTag += 1; if (DevExt->BatteryTag == BATTERY_TAG_INVALID) DevExt->BatteryTag += 1;` -/
def AstonBatteryUpdateTag (DevExt : SURFACE_BATTERY_FDO_DATA) : SURFACE_BATTERY_FDO_DATA :=
  let l1 := LoadBatteryTag DevExt
  let DevExt := StoreBatteryTag l1.2 ((l1.1 + 1) % ULONG_MOD)
  let l2 := LoadBatteryTag DevExt
  if l2.1 = BATTERY_TAG_INVALID then
    let l3 := LoadBatteryTag l2.2
    StoreBatteryTag l3.2 ((l3.1 + 1) % ULONG_MOD)
  else
    l2.2

/-- The routine `AstonBatteryPrepareHardware`. -/
def AstonBatteryPrepareHardware (Device : SURFACE_BATTERY_FDO_DATA) :
    SURFACE_BATTERY_FDO_DATA :=
  let DevExt := Device
  let DevExt := WdfWaitLockAcquire DevExt
  let DevExt := AstonBatteryUpdateTag DevExt
  WdfWaitLockRelease DevExt

/-- Result of `AstonBatteryQueryTag`: the status, the content of `*BatteryTag` and the
device extension. -/
structure QueryTagResult where
  Status : Nat
  BatteryTag : Nat
  DevExt : SURFACE_BATTERY_FDO_DATA

/-- The routine `AstonBatteryQueryTag`.  The caller's `*BatteryTag` is written in every
case, so its prior content is not an argument. -/
def AstonBatteryQueryTag (Context : SURFACE_BATTERY_FDO_DATA) : QueryTagResult :=
  let DevExt := Context
  let DevExt := WdfWaitLockAcquire DevExt
  let l := LoadBatteryTag DevExt
  let BatteryTag := l.1
  let DevExt := WdfWaitLockRelease l.2
  if BatteryTag = BATTERY_TAG_INVALID then
    { Status := STATUS_NO_SUCH_DEVICE, BatteryTag := BatteryTag, DevExt := DevExt }
  else
    { Status := STATUS_SUCCESS, BatteryTag := BatteryTag, DevExt := DevExt }

/-- Result of the two helpers that fill a local of `AstonBatteryQueryInformation`. -/
structure HelperResult (α : Type) where
  Status : Nat
  Value : α
  DevExt : SURFACE_BATTERY_FDO_DATA

/-- The routine `AstonBatteryQueryBatteryInformation`.  `BatteryInformationResult` is
the content of the record the pointer argument designates; the three reads store two
bytes each at the address of a `ULONG` field. -/
def AstonBatteryQueryBatteryInformation (DevExt : SURFACE_BATTERY_FDO_DATA)
    (BatteryInformationResult : BATTERY_INFORMATION) : HelperResult BATTERY_INFORMATION :=
  let Info := { BatteryInformationResult with
    Capabilities :=
      BATTERY_SYSTEM_BATTERY |||
      BATTERY_SET_CHARGE_SUPPORTED |||
      BATTERY_SET_DISCHARGE_SUPPORTED |||
      BATTERY_SET_CHARGINGSOURCE_SUPPORTED |||
      BATTERY_SET_CHARGER_ID_SUPPORTED }
  let Info := { Info with Technology := 1 }
  -- BYTE LION[4] = { 'L','I','O','N' }; RtlCopyMemory(..->Chemistry, LION, 4)
  let LION : List Nat := ['L', 'I', 'O', 'N'].map Char.toNat
  let Info := { Info with Chemistry := LION }
  let r := SpbReadDataSynchronously DevExt 0x3C 2
  let Status := r.1.Status
  if NT_SUCCESS Status = false then
    { Status := Status, Value := Info, DevExt := r.2 }
  else
  let Info := { Info with DesignedCapacity := StoreBytes Info.DesignedCapacity r.1.Data 2 }
  let Info := { Info with
    DesignedCapacity := AstonBatteryConvertMAHToMWH ((Info.DesignedCapacity * 2) % ULONG_MOD) }
  let r := SpbReadDataSynchronously r.2 0x12 2
  let Status := r.1.Status
  if NT_SUCCESS Status = false then
    { Status := Status, Value := Info, DevExt := r.2 }
  else
  let Info := { Info with
    FullChargedCapacity := StoreBytes Info.FullChargedCapacity r.1.Data 2 }
  let Info := { Info with
    FullChargedCapacity :=
      AstonBatteryConvertMAHToMWH ((Info.FullChargedCapacity * 2) % ULONG_MOD) }
  let Info := { Info with
    DefaultAlert1 := (Info.FullChargedCapacity * 7) % ULONG_MOD / 100 }
  let Info := { Info with
    DefaultAlert2 := (Info.FullChargedCapacity * 9) % ULONG_MOD / 100 }
  let Info := { Info with CriticalBias := 0 }
  let r := SpbReadDataSynchronously r.2 0x2A 2
  let Status := r.1.Status
  if NT_SUCCESS Status = false then
    { Status := Status, Value := Info, DevExt := r.2 }
  else
  let Info := { Info with CycleCount := StoreBytes Info.CycleCount r.1.Data 2 }
  { Status := Status, Value := Info, DevExt := r.2 }

/-- The routine `AstonBatteryQueryBatteryEstimatedTime`.  `ResultValue` is the content
of `*ResultValue` on entry.  `Flags` is a `UCHAR`, so of the two bytes read only the
first one lands in it (where the second byte lands is outside this embedding); `ETA`
is a `UINT16` and `ETA * 60` is computed in `int` and stored in a `ULONG`. -/
def AstonBatteryQueryBatteryEstimatedTime (DevExt : SURFACE_BATTERY_FDO_DATA)
    (AtRate : Int) (ResultValue : Nat) : HelperResult Nat :=
  let Status := STATUS_SUCCESS
  let Flags : Nat := 0
  let ETA : Nat := 0
  if AtRate = 0 then
    let r := SpbReadDataSynchronously DevExt 0x0A 2
    let Status := r.1.Status
    if NT_SUCCESS Status = false then
      { Status := Status, Value := ResultValue, DevExt := r.2 }
    else
    let Flags := StoreBytes Flags r.1.Data 2 % 256
    if Flags &&& (1 <<< 0) ≠ 0 ∨ Flags &&& (1 <<< 1) ≠ 0 then
      let r := SpbReadDataSynchronously r.2 0x04 2
      let Status := r.1.Status
      if NT_SUCCESS Status = false then
        { Status := Status, Value := ResultValue, DevExt := r.2 }
      else
      let ETA := StoreBytes ETA r.1.Data 2
      if ETA = 0xFFFF then
        { Status := Status, Value := ResultValue, DevExt := r.2 }
      else
        { Status := Status, Value := (ETA * 60) % ULONG_MOD, DevExt := r.2 }
    else
      { Status := Status, Value := BATTERY_UNKNOWN_TIME, DevExt := r.2 }
  else
    { Status := Status, Value := BATTERY_UNKNOWN_TIME, DevExt := DevExt }

/-- What `swprintf_s(StringResult, 128, Format, ...)` leaves in the zero-initialised
array `StringResult` when the formatted text is `Text`: the text, then zeros. -/
def swprintf_s (Text : List Nat) : List Nat :=
  Text ++ List.replicate (MAX_BATTERY_STRING_SIZE - Text.length) 0

/-- The routine `RtlStringCbLengthW(psz, cbMax, &cbLength)` of `ntstrsafe.h`: the byte
length of the string without its terminator when a terminator is found within `cbMax`
bytes, else `STATUS_INVALID_PARAMETER` and length zero. -/
def RtlStringCbLengthW (psz : List Nat) (cbMax : Nat) : Nat × Nat :=
  let Window := psz.take (cbMax / sizeof_WCHAR)
  let Index := Window.findIdx (fun c => c == 0)
  if Index < Window.length then (STATUS_SUCCESS, Index * sizeof_WCHAR)
  else (STATUS_INVALID_PARAMETER, 0)

/-- Text formatted by `L"%c%c%c%c%c%c%c%c%c%c%c%c%u"` for `BatteryUniqueID`. -/
def UniqueIDText : List Nat :=
  (['O', 'P', '7', 'P', 'P', 'B', 'A', 'T', 'T', 'E', 'R', 'Y'] ++ Nat.toDigits 10 2333).map
    Char.toNat

/-- Text formatted by `L"%c%c%c%c%c%c%c"` for `BatteryManufactureName`. -/
def ManufactureNameText : List Nat := [0x4f, 0x4e, 0x45, 0x50, 0x4c, 0x55, 0x53]

/-- Text formatted by `L"%c%c%c%c%c%c"` for `BatteryDeviceName`. -/
def DeviceNameText : List Nat := [0x42, 0x4c, 0x50, 0x41, 0x33, 0x33]

/-- Text formatted by `L"%u"` from `(UINT32)2333` for `BatterySerialNumber`. -/
def SerialNumberText : List Nat := (Nat.toDigits 10 2333).map Char.toNat

/-- State of `AstonBatteryQueryInformation` at its label `Exit`. -/
structure QueryInformationExit where
  Status : Nat
  ReturnBuffer : Option Region
  ReturnBufferLength : Nat
  DevExt : SURFACE_BATTERY_FDO_DATA

/-- One of the four string cases of the `switch`: format, measure, add the terminator. -/
def QueryInformationString (DevExt : SURFACE_BATTERY_FDO_DATA) (Text : List Nat) :
    QueryInformationExit :=
  let StringResult := swprintf_s Text
  let l := RtlStringCbLengthW StringResult (MAX_BATTERY_STRING_SIZE * sizeof_WCHAR)
  let Status := l.1
  let ReturnBufferLength := l.2
  if NT_SUCCESS Status = false then
    { Status := Status, ReturnBuffer := none, ReturnBufferLength := ReturnBufferLength,
      DevExt := DevExt }
  else
    { Status := STATUS_SUCCESS, ReturnBuffer := some (.WideString StringResult),
      ReturnBufferLength := ReturnBufferLength + sizeof_WCHAR, DevExt := DevExt }

/-- The part of `AstonBatteryQueryInformation` between the tag check and the label
`Exit`: the initialisation of `ReturnBuffer`, `ReturnBufferLength` and `Status` and
the `switch (Level)`.  `ReturnBuffer = NULL` and `ReturnBufferLength = 0` appear below
on every path that does not assign them; the initial `STATUS_INVALID_DEVICE_REQUEST`
is overwritten on every path.  `ResultValue` is the content of the local
`ULONG ResultValue`, which the routine declares without an initialiser. -/
def AstonBatteryQueryInformationSwitch (DevExt : SURFACE_BATTERY_FDO_DATA) (Level : Int)
    (AtRate : Int) (ResultValue : Nat) : QueryInformationExit :=
  let Percentage : Nat := 8000
  let ReportingScale : BATTERY_REPORTING_SCALE := { Granularity := 0, Capacity := 0 }
  let BatteryInformationResult : BATTERY_INFORMATION :=
    { Capabilities := 0, Technology := 0, Reserved := [0, 0, 0], Chemistry := [0, 0, 0, 0],
      DesignedCapacity := 0, FullChargedCapacity := 0, DefaultAlert1 := 0,
      DefaultAlert2 := 0, CriticalBias := 0, CycleCount := 0 }
  let ManufactureDate : BATTERY_MANUFACTURE_DATE := { Day := 0, Month := 0, Year := 0 }
  let Temperature : Nat := 0
  if Level = BatteryInformation then
    let h := AstonBatteryQueryBatteryInformation DevExt BatteryInformationResult
    if NT_SUCCESS h.Status = false then
      { Status := h.Status, ReturnBuffer := none, ReturnBufferLength := 0, DevExt := h.DevExt }
    else
      { Status := STATUS_SUCCESS, ReturnBuffer := some (.Information h.Value),
        ReturnBufferLength := sizeof_BATTERY_INFORMATION, DevExt := h.DevExt }
  else if Level = BatteryEstimatedTime then
    let h := AstonBatteryQueryBatteryEstimatedTime DevExt AtRate ResultValue
    if NT_SUCCESS h.Status = false then
      { Status := h.Status, ReturnBuffer := none, ReturnBufferLength := 0, DevExt := h.DevExt }
    else
      { Status := STATUS_SUCCESS, ReturnBuffer := some (.Ulong h.Value),
        ReturnBufferLength := sizeof_ULONG, DevExt := h.DevExt }
  else if Level = BatteryUniqueID then
    QueryInformationString DevExt UniqueIDText
  else if Level = BatteryManufactureName then
    QueryInformationString DevExt ManufactureNameText
  else if Level = BatteryDeviceName then
    QueryInformationString DevExt DeviceNameText
  else if Level = BatterySerialNumber then
    QueryInformationString DevExt SerialNumberText
  else if Level = BatteryManufactureDate then
    let ManufactureDate := { ManufactureDate with Day := 1 }
    let ManufactureDate := { ManufactureDate with Month := 1 }
    let ManufactureDate := { ManufactureDate with Year := 2024 }
    { Status := STATUS_SUCCESS, ReturnBuffer := some (.ManufactureDate ManufactureDate),
      ReturnBufferLength := sizeof_BATTERY_MANUFACTURE_DATE, DevExt := DevExt }
  else if Level = BatteryGranularityInformation then
    let r := SpbReadDataSynchronously DevExt 0x10 2
    let Status := r.1.Status
    if NT_SUCCESS Status = false then
      { Status := Status, ReturnBuffer := none, ReturnBufferLength := 0, DevExt := r.2 }
    else
    let Percentage := StoreBytes Percentage r.1.Data 2
    let ReportingScale := { ReportingScale with
      Capacity := AstonBatteryConvertMAHToMWH ((Percentage * 2) % ULONG_MOD) }
    let ReportingScale := { ReportingScale with Granularity := 1 }
    { Status := STATUS_SUCCESS, ReturnBuffer := some (.ReportingScale ReportingScale),
      ReturnBufferLength := sizeof_BATTERY_REPORTING_SCALE, DevExt := r.2 }
  else if Level = BatteryTemperature then
    let r := SpbReadDataSynchronously DevExt 0x06 2
    let Status := r.1.Status
    if NT_SUCCESS Status = false then
      { Status := Status, ReturnBuffer := none, ReturnBufferLength := 0, DevExt := r.2 }
    else
    let Temperature := StoreBytes Temperature r.1.Data 2
    { Status := STATUS_SUCCESS, ReturnBuffer := some (.Ulong Temperature),
      ReturnBufferLength := sizeof_ULONG, DevExt := r.2 }
  else
    { Status := STATUS_INVALID_PARAMETER, ReturnBuffer := none, ReturnBufferLength := 0,
      DevExt := DevExt }

/-- The condition of the `NT_ASSERT` at the label `Exit`. -/
def ExitAssertion (ReturnBuffer : Option Region) (ReturnBufferLength : Nat) : Bool :=
  (ReturnBufferLength == 0 && ReturnBuffer.isNone) ||
  (decide (ReturnBufferLength > 0) && ReturnBuffer.isSome)

/-- Result of `AstonBatteryQueryInformation`: the status, the content of the caller's
`Buffer` and of `*ReturnedLength` on return, and the device extension. -/
structure QueryInformationResult where
  Status : Nat
  Buffer : Option Region
  ReturnedLength : Nat
  DevExt : SURFACE_BATTERY_FDO_DATA

/-- The routine `AstonBatteryQueryInformation`.  `Buffer` and `ReturnedLength` are the
prior contents of the caller's memory (`Buffer = none` is a `NULL` pointer);
`ResultValue` is whatever the uninitialised local of that name holds on entry. -/
def AstonBatteryQueryInformation (Context : SURFACE_BATTERY_FDO_DATA) (BatteryTag : Nat)
    (Level : Int) (AtRate : Int) (Buffer : Option Region) (BufferLength : Nat)
    (ReturnedLength : Nat) (ResultValue : Nat) : QueryInformationResult :=
  let DevExt := Context
  let DevExt := WdfWaitLockAcquire DevExt
  let l := LoadBatteryTag DevExt
  if BatteryTag ≠ l.1 then
    -- goto QueryInformationEnd
    { Status := STATUS_NO_SUCH_DEVICE, Buffer := Buffer, ReturnedLength := ReturnedLength,
      DevExt := WdfWaitLockRelease l.2 }
  else
  let e := AstonBatteryQueryInformationSwitch l.2 Level AtRate ResultValue
  -- Exit:
  if NT_SUCCESS e.Status then
    let ReturnedLength := e.ReturnBufferLength % ULONG_MOD
    match e.ReturnBuffer with
    | some Source =>
      if Buffer = none ∨ BufferLength < e.ReturnBufferLength then
        { Status := STATUS_BUFFER_TOO_SMALL, Buffer := Buffer,
          ReturnedLength := ReturnedLength, DevExt := WdfWaitLockRelease e.DevExt }
      else
        { Status := e.Status, Buffer := some (memcpy Source e.ReturnBufferLength),
          ReturnedLength := ReturnedLength, DevExt := WdfWaitLockRelease e.DevExt }
    | none =>
      { Status := e.Status, Buffer := Buffer, ReturnedLength := ReturnedLength,
        DevExt := WdfWaitLockRelease e.DevExt }
  else
    { Status := e.Status, Buffer := Buffer, ReturnedLength := 0,
      DevExt := WdfWaitLockRelease e.DevExt }

/-- Result of `AstonBatteryQueryStatus`: the status, the content of `*BatteryStatus` on
return and the device extension. -/
structure QueryStatusResult where
  Status : Nat
  BatteryStatus : BATTERY_STATUS
  DevExt : SURFACE_BATTERY_FDO_DATA

/-- The routine `AstonBatteryQueryStatus`.  `BatteryStatus` is the prior content of the
caller's record.  The first read stores two bytes at the address of the `LONG` field
`Rate` of that record; the other two store into the locals `VBATT` and `Percentage`. -/
def AstonBatteryQueryStatus (Context : SURFACE_BATTERY_FDO_DATA) (BatteryTag : Nat)
    (BatteryStatus : BATTERY_STATUS) : QueryStatusResult :=
  let VBATT : Nat := 8000
  let Percentage : Nat := (24750 * 2) % ULONG_MOD
  let DevExt := Context
  let DevExt := WdfWaitLockAcquire DevExt
  let l := LoadBatteryTag DevExt
  if BatteryTag ≠ l.1 then
    { Status := STATUS_NO_SUCH_DEVICE, BatteryStatus := BatteryStatus,
      DevExt := WdfWaitLockRelease l.2 }
  else
  let r := SpbReadDataSynchronously l.2 0x0C 2
  let Status := r.1.Status
  if NT_SUCCESS Status = false then
    { Status := Status, BatteryStatus := BatteryStatus, DevExt := WdfWaitLockRelease r.2 }
  else
  let BatteryStatus := { BatteryStatus with Rate := StoreBytes BatteryStatus.Rate r.1.Data 2 }
  let BatteryStatus := { BatteryStatus with PowerState := BATTERY_DISCHARGING }
  let r := SpbReadDataSynchronously r.2 0x08 2
  let Status := r.1.Status
  if NT_SUCCESS Status = false then
    { Status := Status, BatteryStatus := BatteryStatus, DevExt := WdfWaitLockRelease r.2 }
  else
  let VBATT := StoreBytes VBATT r.1.Data 2
  let r := SpbReadDataSynchronously r.2 0x10 2
  let Status := r.1.Status
  if NT_SUCCESS Status = false then
    { Status := Status, BatteryStatus := BatteryStatus, DevExt := WdfWaitLockRelease r.2 }
  else
  let Percentage := StoreBytes Percentage r.1.Data 2
  let BatteryStatus := { BatteryStatus with
    Capacity := AstonBatteryConvertMAHToMWH ((Percentage * 2) % ULONG_MOD) }
  let BatteryStatus := { BatteryStatus with Voltage := VBATT }
  { Status := STATUS_SUCCESS, BatteryStatus := BatteryStatus,
    DevExt := WdfWaitLockRelease r.2 }

/-- Result of the callbacks that only return a status. -/
structure StatusResult where
  Status : Nat
  DevExt : SURFACE_BATTERY_FDO_DATA

/-- The routine `AstonBatterySetStatusNotify`; `BatteryNotify` is not referenced. -/
def AstonBatterySetStatusNotify (Context : SURFACE_BATTERY_FDO_DATA) (BatteryTag : Nat)
    (_BatteryNotify : Option Region) : StatusResult :=
  let DevExt := Context
  let DevExt := WdfWaitLockAcquire DevExt
  let l := LoadBatteryTag DevExt
  if BatteryTag ≠ l.1 then
    { Status := STATUS_NO_SUCH_DEVICE, DevExt := WdfWaitLockRelease l.2 }
  else
    { Status := STATUS_NOT_SUPPORTED, DevExt := WdfWaitLockRelease l.2 }

/-- The routine `AstonBatteryDisableStatusNotify`; `Context` is not referenced. -/
def AstonBatteryDisableStatusNotify (Context : SURFACE_BATTERY_FDO_DATA) : StatusResult :=
  { Status := STATUS_NOT_SUPPORTED, DevExt := Context }

/-- The routine `AstonBatterySetInformation`.  `Buffer` is the payload pointer
(`none` is `NULL`); its content is only traced by the routine. -/
def AstonBatterySetInformation (Context : SURFACE_BATTERY_FDO_DATA) (BatteryTag : Nat)
    (Level : Int) (Buffer : Option Region) : StatusResult :=
  let DevExt := Context
  let DevExt := WdfWaitLockAcquire DevExt
  let l := LoadBatteryTag DevExt
  if BatteryTag ≠ l.1 then
    { Status := STATUS_NO_SUCH_DEVICE, DevExt := WdfWaitLockRelease l.2 }
  else
  let Status :=
    if Level = BatteryCharge then STATUS_SUCCESS
    else if Level = BatteryDischarge then STATUS_SUCCESS
    else if Buffer = none then STATUS_INVALID_PARAMETER_4
    else if Level = BatteryChargingSource then STATUS_SUCCESS
    else if Level = BatteryCriticalBias then STATUS_SUCCESS
    else if Level = BatteryChargerId then STATUS_SUCCESS
    else if Level = BatteryChargerStatus then STATUS_SUCCESS
    else STATUS_NOT_SUPPORTED
  { Status := Status, DevExt := WdfWaitLockRelease l.2 }

/-- Shape of the state at the label `Exit`: a success status with a result of positive
length (at most 36 bytes, the largest record) attached, or a failure status with no
result attached. -/
def ExitShape (e : QueryInformationExit) : Prop :=
  (NT_SUCCESS e.Status = true ∧ (∃ Source, e.ReturnBuffer = some Source) ∧
    0 < e.ReturnBufferLength ∧ e.ReturnBufferLength ≤ 36) ∨
  (NT_SUCCESS e.Status = false ∧ e.ReturnBuffer = none ∧ e.ReturnBufferLength = 0)

/-- Replay of a list of events against the state of the lock (`true` is held): `none`
when an event breaks the discipline, that is when a held lock is acquired, a free lock
is released, or a register is read or `BatteryTag` is read or written while the lock is
free; otherwise the state the lock is left in. -/
def CheckGuard (Held : Bool) : List Event → Option Bool
  | [] => some Held
  | .LockAcquire :: t => if Held then none else CheckGuard true t
  | .LockRelease :: t => if Held then CheckGuard false t else none
  | .TagRead :: t => if Held then CheckGuard true t else none
  | .TagWrite :: t => if Held then CheckGuard true t else none
  | .SpbRead _ _ :: t => if Held then CheckGuard true t else none

/-- The guard discipline of one call that took the device extension from `Before` to
`After`: the call only appended events to the trace; replayed from the state the lock
was in, these events never break the discipline and leave the lock free; the lock is
acquired once and released once; the lock field is free on return. -/
def GuardDiscipline (Before After : SURFACE_BATTERY_FDO_DATA) : Prop :=
  ∃ Events : List Event,
    After.Trace = Before.Trace ++ Events ∧
    CheckGuard Before.StateLock Events = some false ∧
    Events.count Event.LockAcquire = 1 ∧
    Events.count Event.LockRelease = 1 ∧
    After.StateLock = false

/-- The value of `DevExt->BatteryTag` after `AstonBatteryUpdateTag` found `Tag` there:
one increment, and a second one when the first gave `BATTERY_TAG_INVALID`. -/
def UpdatedTag (Tag : Nat) : Nat :=
  if (Tag + 1) % ULONG_MOD = BATTERY_TAG_INVALID then ((Tag + 1) % ULONG_MOD + 1) % ULONG_MOD
  else (Tag + 1) % ULONG_MOD

/-- The registers a query level reads, in order, when every read succeeds and the flag
register shows a discharging bit; the other levels read none. -/
def ReadPlan (Level : Int) (AtRate : Int) : List Nat :=
  if Level = BatteryInformation then [0x3C, 0x12, 0x2A]
  else if Level = BatteryEstimatedTime then (if AtRate = 0 then [0x0A, 0x04] else [])
  else if Level = BatteryGranularityInformation then [0x10]
  else if Level = BatteryTemperature then [0x06]
  else []

/-- A stretch of code that started in `D0` and ended in `D1` with status `Status` did
nothing to the device extension but issue two-byte reads, at the registers `Addresses`:
an initial segment of `Plan`, not empty when `Plan` is not.  A read whose reply is a
failure is the last one issued and its status is `Status`.  When no read was issued the
status is `STATUS_SUCCESS` or `STATUS_INVALID_PARAMETER`. -/
def ReadsAndStops (Plan : List Nat) (D0 : SURFACE_BATTERY_FDO_DATA) (Status : Nat)
    (D1 : SURFACE_BATTERY_FDO_DATA) : Prop :=
  ∃ Addresses : List Nat,
    Addresses <+: Plan ∧ (Plan ≠ [] → Addresses ≠ []) ∧
    D1 = { D0 with
      I2CContext := { D0.I2CContext with Reads := D0.I2CContext.Reads + Addresses.length },
      Trace := D0.Trace ++ Addresses.map (fun a => Event.SpbRead a 2) } ∧
    (∀ k a, Addresses[k]? = some a →
      NT_SUCCESS (D0.I2CContext.Device (D0.I2CContext.Reads + k) a).Status = false →
      Status = (D0.I2CContext.Device (D0.I2CContext.Reads + k) a).Status ∧
      k + 1 = Addresses.length) ∧
    (Addresses = [] → Status = STATUS_SUCCESS ∨ Status = STATUS_INVALID_PARAMETER)

/-! ## Sample gauges and devices -/

/-- A gauge on which every read succeeds: design capacity 5000, full-charge capacity
4800, cycle count 37, status flags 1, time to empty 120, percentage register 100,
rate 5, voltage 4000, temperature 2980. -/
def SampleGauge : Nat → Nat → SpbReply := fun _ Address =>
  if Address = 0x3C then ⟨STATUS_SUCCESS, 5000⟩
  else if Address = 0x12 then ⟨STATUS_SUCCESS, 4800⟩
  else if Address = 0x2A then ⟨STATUS_SUCCESS, 37⟩
  else if Address = 0x0A then ⟨STATUS_SUCCESS, 1⟩
  else if Address = 0x04 then ⟨STATUS_SUCCESS, 120⟩
  else if Address = 0x10 then ⟨STATUS_SUCCESS, 100⟩
  else if Address = 0x0C then ⟨STATUS_SUCCESS, 5⟩
  else if Address = 0x08 then ⟨STATUS_SUCCESS, 4000⟩
  else ⟨STATUS_SUCCESS, 2980⟩

/-- The sample gauge, except that the time-to-empty register reads `0xFFFF`. -/
def SentinelGauge : Nat → Nat → SpbReply := fun n Address =>
  if Address = 0x04 then ⟨STATUS_SUCCESS, 0xFFFF⟩ else SampleGauge n Address

/-- The sample gauge, except that the read of the voltage register fails. -/
def VoltageFailGauge : Nat → Nat → SpbReply := fun n Address =>
  if Address = 0x08 then ⟨STATUS_IO_DEVICE_ERROR, 0⟩ else SampleGauge n Address

/-- A gauge on which every read fails. -/
def DeadGauge : Nat → Nat → SpbReply := fun _ _ => ⟨STATUS_IO_DEVICE_ERROR, 0⟩

/-- An attached device with tag 1, the lock released, no read issued yet. -/
def SampleDevice (Gauge : Nat → Nat → SpbReply) : SURFACE_BATTERY_FDO_DATA :=
  { StateLock := false, BatteryTag := 1, I2CContext := { Device := Gauge, Reads := 0 },
    Trace := [] }

/-! ## Theorems -/

/-- One call of `AstonBatteryUpdateTag` never leaves the invalid tag behind. -/
theorem AstonBatteryUpdateTag_ne_invalid (DevExt : SURFACE_BATTERY_FDO_DATA) :
    (AstonBatteryUpdateTag DevExt).BatteryTag ≠ BATTERY_TAG_INVALID := by
  unfold AstonBatteryUpdateTag
  simp only [LoadBatteryTag, StoreBatteryTag, Record]
  split
  · rename_i h
    simp only [BATTERY_TAG_INVALID, ULONG_MOD] at h ⊢
    omega
  · rename_i h
    exact h

/-- C1: for every initial battery tag and every non-empty sequence of calls of
`AstonBatteryUpdateTag` (`n + 1` calls, increments modulo 2^32), the resulting
battery tag is not `BATTERY_TAG_INVALID`. -/
theorem C1_update_tag_never_invalid (DevExt : SURFACE_BATTERY_FDO_DATA) (n : Nat) :
    (Nat.iterate AstonBatteryUpdateTag (n + 1) DevExt).BatteryTag ≠ BATTERY_TAG_INVALID := by
  rw [Function.iterate_succ_apply']
  exact AstonBatteryUpdateTag_ne_invalid _

/-- C2: when the presented tag differs from `DevExt->BatteryTag`, each of
`AstonBatteryQueryInformation`, `AstonBatteryQueryStatus`, `AstonBatterySetInformation`
and `AstonBatterySetStatusNotify` returns `STATUS_NO_SUCH_DEVICE` and issues no
register read (the read counter is unchanged and the trace gains only the lock
acquisition, the tag comparison and the lock release), for all other arguments. -/
theorem C2_tag_mismatch_no_such_device (Context : SURFACE_BATTERY_FDO_DATA)
    (BatteryTag : Nat) (hTag : BatteryTag ≠ Context.BatteryTag)
    (Level AtRate SetLevel : Int) (Buffer Payload BatteryNotify : Option Region)
    (BufferLength ReturnedLength ResultValue : Nat) (BatteryStatus : BATTERY_STATUS) :
    ((AstonBatteryQueryInformation Context BatteryTag Level AtRate Buffer BufferLength
        ReturnedLength ResultValue).Status = STATUS_NO_SUCH_DEVICE ∧
     (AstonBatteryQueryInformation Context BatteryTag Level AtRate Buffer BufferLength
        ReturnedLength ResultValue).DevExt.I2CContext.Reads = Context.I2CContext.Reads ∧
     (AstonBatteryQueryInformation Context BatteryTag Level AtRate Buffer BufferLength
        ReturnedLength ResultValue).DevExt.Trace =
       Context.Trace ++ [.LockAcquire, .TagRead, .LockRelease]) ∧
    ((AstonBatteryQueryStatus Context BatteryTag BatteryStatus).Status =
        STATUS_NO_SUCH_DEVICE ∧
     (AstonBatteryQueryStatus Context BatteryTag BatteryStatus).DevExt.I2CContext.Reads =
        Context.I2CContext.Reads ∧
     (AstonBatteryQueryStatus Context BatteryTag BatteryStatus).DevExt.Trace =
       Context.Trace ++ [.LockAcquire, .TagRead, .LockRelease]) ∧
    ((AstonBatterySetInformation Context BatteryTag SetLevel Payload).Status =
        STATUS_NO_SUCH_DEVICE ∧
     (AstonBatterySetInformation Context BatteryTag SetLevel Payload).DevExt.I2CContext.Reads =
        Context.I2CContext.Reads ∧
     (AstonBatterySetInformation Context BatteryTag SetLevel Payload).DevExt.Trace =
       Context.Trace ++ [.LockAcquire, .TagRead, .LockRelease]) ∧
    ((AstonBatterySetStatusNotify Context BatteryTag BatteryNotify).Status =
        STATUS_NO_SUCH_DEVICE ∧
     (AstonBatterySetStatusNotify Context BatteryTag BatteryNotify).DevExt.I2CContext.Reads =
        Context.I2CContext.Reads ∧
     (AstonBatterySetStatusNotify Context BatteryTag BatteryNotify).DevExt.Trace =
       Context.Trace ++ [.LockAcquire, .TagRead, .LockRelease]) := by
  simp [AstonBatteryQueryInformation, AstonBatteryQueryStatus, AstonBatterySetInformation,
    AstonBatterySetStatusNotify, WdfWaitLockAcquire, WdfWaitLockRelease, LoadBatteryTag,
    Record, hTag]

/-- C2 at a concrete input: tag 2 presented to a device whose tag is 1. -/
theorem C2_tag_mismatch_witness :
    (2 : Nat) ≠ (SampleDevice SampleGauge).BatteryTag ∧
    (AstonBatteryQueryInformation (SampleDevice SampleGauge) 2 BatteryInformation 0
        (some (.Raw [])) 36 0 0).Status = STATUS_NO_SUCH_DEVICE ∧
    (AstonBatteryQueryStatus (SampleDevice SampleGauge) 2 ⟨0, 0, 0, 0⟩).Status =
        STATUS_NO_SUCH_DEVICE ∧
    (AstonBatterySetInformation (SampleDevice SampleGauge) 2 BatteryCharge none).Status =
        STATUS_NO_SUCH_DEVICE ∧
    (AstonBatterySetStatusNotify (SampleDevice SampleGauge) 2 none).Status =
        STATUS_NO_SUCH_DEVICE :=
  have h := C2_tag_mismatch_no_such_device (SampleDevice SampleGauge) 2 (by decide)
    BatteryInformation 0 BatteryCharge (some (.Raw [])) none none 36 0 0 ⟨0, 0, 0, 0⟩
  ⟨by decide, h.1.1, h.2.1.1, h.2.2.1.1, h.2.2.2.1⟩

/-- The status `STATUS_SUCCESS` is a success. -/
theorem NT_SUCCESS_STATUS_SUCCESS : NT_SUCCESS STATUS_SUCCESS = true := by decide

/-- The status `STATUS_INVALID_PARAMETER` is a failure. -/
theorem NT_SUCCESS_STATUS_INVALID_PARAMETER :
    NT_SUCCESS STATUS_INVALID_PARAMETER = false := by decide

/-- C3: with a matching tag, the reads of design capacity (0x3C), full-charge capacity
(0x12) and cycle count (0x2A) succeeding with 16-bit values `d`, `f`, `c`, and a caller
buffer of at least `sizeof(BATTERY_INFORMATION)` bytes, the level `BatteryInformation`
succeeds and the buffer receives `DesignedCapacity = 18 * d`,
`FullChargedCapacity = 18 * f`, `DefaultAlert1 = 18 * f * 7 / 100`,
`DefaultAlert2 = 18 * f * 9 / 100`, `CycleCount = c`, `CriticalBias = 0`,
`Technology = 1`, `Chemistry = "LION"` and the five capability flags; the equalities are
between natural numbers, so nothing wrapped around, and `18 * x` is
`AstonBatteryConvertMAHToMWH (2 * x)`. -/
theorem C3_static_information (Context : SURFACE_BATTERY_FDO_DATA) (BatteryTag : Nat)
    (AtRate : Int) (Buffer : Region) (BufferLength ReturnedLength ResultValue : Nat)
    (d f c s1 s2 s3 : Nat)
    (hTag : BatteryTag = Context.BatteryTag)
    (h1 : Context.I2CContext.Device Context.I2CContext.Reads 0x3C = ⟨s1, d⟩)
    (h2 : Context.I2CContext.Device (Context.I2CContext.Reads + 1) 0x12 = ⟨s2, f⟩)
    (h3 : Context.I2CContext.Device (Context.I2CContext.Reads + 2) 0x2A = ⟨s3, c⟩)
    (hs1 : NT_SUCCESS s1 = true) (hs2 : NT_SUCCESS s2 = true) (hs3 : NT_SUCCESS s3 = true)
    (hd : d < 65536) (hf : f < 65536) (hc : c < 65536)
    (hLen : sizeof_BATTERY_INFORMATION ≤ BufferLength) :
    let r := AstonBatteryQueryInformation Context BatteryTag BatteryInformation AtRate
      (some Buffer) BufferLength ReturnedLength ResultValue
    r.Status = STATUS_SUCCESS ∧
    r.ReturnedLength = sizeof_BATTERY_INFORMATION ∧
    r.Buffer = some (.Information
      { Capabilities := 0x8000000F, Technology := 1, Reserved := [0, 0, 0],
        Chemistry := [0x4C, 0x49, 0x4F, 0x4E],
        DesignedCapacity := 18 * d, FullChargedCapacity := 18 * f,
        DefaultAlert1 := 18 * f * 7 / 100, DefaultAlert2 := 18 * f * 9 / 100,
        CriticalBias := 0, CycleCount := c }) ∧
    0x8000000F = (BATTERY_SYSTEM_BATTERY ||| BATTERY_SET_CHARGE_SUPPORTED |||
      BATTERY_SET_DISCHARGE_SUPPORTED ||| BATTERY_SET_CHARGINGSOURCE_SUPPORTED |||
      BATTERY_SET_CHARGER_ID_SUPPORTED) ∧
    AstonBatteryConvertMAHToMWH (2 * d) = 18 * d ∧
    AstonBatteryConvertMAHToMWH (2 * f) = 18 * f := by
  subst hTag
  have e1 : d * 2 % 4294967296 * 9 % 4294967296 = 18 * d := by omega
  have e2 : f * 2 % 4294967296 * 9 % 4294967296 = 18 * f := by omega
  have e3 : 18 * f * 7 % 4294967296 = 18 * f * 7 := by omega
  have e4 : 18 * f * 9 % 4294967296 = 18 * f * 9 := by omega
  have e5 : 2 * d * 9 % 4294967296 = 18 * d := by omega
  have e6 : 2 * f * 9 % 4294967296 = 18 * f := by omega
  have m1 : d % 65536 = d := Nat.mod_eq_of_lt hd
  have m2 : f % 65536 = f := Nat.mod_eq_of_lt hf
  have m3 : c % 65536 = c := Nat.mod_eq_of_lt hc
  have hL : ¬ BufferLength < 36 := by
    simp only [sizeof_BATTERY_INFORMATION] at hLen; omega
  simp [AstonBatteryQueryInformation, AstonBatteryQueryInformationSwitch,
    AstonBatteryQueryBatteryInformation, SpbReadDataSynchronously, StoreBytes,
    AstonBatteryConvertMAHToMWH, WdfWaitLockAcquire, WdfWaitLockRelease, LoadBatteryTag,
    Record, BatteryInformation, h1, h2, h3, hs1, hs2, hs3, ULONG_MOD,
    NT_SUCCESS_STATUS_SUCCESS,
    sizeof_BATTERY_INFORMATION, memcpy, m1, m2, m3, e1, e2, e3, e4, e5, e6, hL,
    BATTERY_SYSTEM_BATTERY, BATTERY_SET_CHARGE_SUPPORTED, BATTERY_SET_DISCHARGE_SUPPORTED,
    BATTERY_SET_CHARGINGSOURCE_SUPPORTED, BATTERY_SET_CHARGER_ID_SUPPORTED]

/-- C3 at a concrete input: the sample gauge (`d = 5000`, `f = 4800`, `c = 37`) and a
36-byte buffer. -/
theorem C3_static_information_witness :
    let r := AstonBatteryQueryInformation (SampleDevice SampleGauge) 1 BatteryInformation 0
      (some (.Raw [])) 36 0 0
    r.Status = STATUS_SUCCESS ∧
    r.ReturnedLength = sizeof_BATTERY_INFORMATION ∧
    r.Buffer = some (.Information
      { Capabilities := 0x8000000F, Technology := 1, Reserved := [0, 0, 0],
        Chemistry := [0x4C, 0x49, 0x4F, 0x4E],
        DesignedCapacity := 18 * 5000, FullChargedCapacity := 18 * 4800,
        DefaultAlert1 := 18 * 4800 * 7 / 100, DefaultAlert2 := 18 * 4800 * 9 / 100,
        CriticalBias := 0, CycleCount := 37 }) ∧
    0x8000000F = (BATTERY_SYSTEM_BATTERY ||| BATTERY_SET_CHARGE_SUPPORTED |||
      BATTERY_SET_DISCHARGE_SUPPORTED ||| BATTERY_SET_CHARGINGSOURCE_SUPPORTED |||
      BATTERY_SET_CHARGER_ID_SUPPORTED) ∧
    AstonBatteryConvertMAHToMWH (2 * 5000) = 18 * 5000 ∧
    AstonBatteryConvertMAHToMWH (2 * 4800) = 18 * 4800 :=
  C3_static_information (SampleDevice SampleGauge) 1 0 (.Raw []) 36 0 0 5000 4800 37
    STATUS_SUCCESS STATUS_SUCCESS STATUS_SUCCESS rfl rfl rfl rfl (by decide) (by decide)
    (by decide) (by decide) (by decide) (by decide) (by decide)

/-- The test `Flags & (1 << 0) || Flags & (1 << 1)` on the byte that a two-byte read of
`v` leaves in the `UCHAR Flags`: bit 0 or bit 1 of `v` is set. -/
theorem discharging_test_iff (v : Nat) :
    (StoreBytes 0 v 2 % 256 &&& (1 <<< 0) ≠ 0 ∨ StoreBytes 0 v 2 % 256 &&& (1 <<< 1) ≠ 0) ↔
    (v.testBit 0 = true ∨ v.testBit 1 = true) := by
  have key : ∀ x : Fin 256,
      ((x.val &&& (1 <<< 0) ≠ 0 ∨ x.val &&& (1 <<< 1) ≠ 0) ↔
        (x.val % 2 = 1 ∨ x.val / 2 % 2 = 1)) := by
    set_option maxRecDepth 100000 in decide
  have hlt : StoreBytes 0 v 2 % 256 < 256 := Nat.mod_lt _ (by decide)
  have hk := key ⟨StoreBytes 0 v 2 % 256, hlt⟩
  have hv : StoreBytes 0 v 2 % 256 = v % 256 := by
    norm_num [StoreBytes]
  rw [hk]
  simp only [hv, Nat.testBit_to_div_mod, decide_eq_true_eq]
  have a : v % 256 % 2 = v % 2 := by omega
  have b : v % 256 / 2 % 2 = v / 2 % 2 := by omega
  rw [a, b]
  norm_num

/-- The helper `AstonBatteryQueryBatteryEstimatedTime` with `AtRate == 0`, a successful
flag read with a discharging bit and a successful read of the 16-bit value `e` from the
time-to-empty register: two reads are issued; `*ResultValue` keeps its prior content
when `e` is `0xFFFF` and becomes `e * 60` otherwise. -/
theorem EstimatedTime_discharging (DevExt : SURFACE_BATTERY_FDO_DATA) (ResultValue : Nat)
    (sf flags se e : Nat)
    (hf : DevExt.I2CContext.Device DevExt.I2CContext.Reads 0x0A = ⟨sf, flags⟩)
    (he : DevExt.I2CContext.Device (DevExt.I2CContext.Reads + 1) 0x04 = ⟨se, e⟩)
    (hsf : NT_SUCCESS sf = true) (hse : NT_SUCCESS se = true)
    (hbit : flags.testBit 0 = true ∨ flags.testBit 1 = true) (he16 : e < 65536) :
    AstonBatteryQueryBatteryEstimatedTime DevExt 0 ResultValue =
      { Status := se,
        Value := if e = 0xFFFF then ResultValue else e * 60,
        DevExt := { DevExt with
          I2CContext := { DevExt.I2CContext with Reads := DevExt.I2CContext.Reads + 2 },
          Trace := DevExt.Trace ++ [.SpbRead 0x0A 2, .SpbRead 0x04 2] } } := by
  have hbit2 := (discharging_test_iff flags).mpr hbit
  have hE : StoreBytes 0 e 2 = e := by
    norm_num [StoreBytes]; omega
  have h60 : e * 60 % ULONG_MOD = e * 60 := by
    simp only [ULONG_MOD]; omega
  unfold AstonBatteryQueryBatteryEstimatedTime
  simp only [SpbReadDataSynchronously, Record, hf, he, hsf, hse, hbit2, hE, h60]
  by_cases h : e = 0xFFFF <;> simp [h]

/-- C4, evaluated where it fails: tag 1 matches, `AtRate == 0`, the flag register
reads 1 (discharging), the time-to-empty register reads `0xFFFF`, the buffer has four
bytes.  The call succeeds and hands back whatever the uninitialised local `ResultValue`
held, for every such content and every prior content of the buffer; with the local
holding 0 the result is 0 and not `BATTERY_UNKNOWN_TIME`. -/
theorem C4_sentinel_returns_uninitialised_local :
    (∀ (ResultValue : Nat) (Buffer : Region),
      (AstonBatteryQueryInformation (SampleDevice SentinelGauge) 1 BatteryEstimatedTime 0
        (some Buffer) 4 0 ResultValue).Status = STATUS_SUCCESS ∧
      (AstonBatteryQueryInformation (SampleDevice SentinelGauge) 1 BatteryEstimatedTime 0
        (some Buffer) 4 0 ResultValue).Buffer = some (.Ulong ResultValue)) ∧
    (AstonBatteryQueryInformation (SampleDevice SentinelGauge) 1 BatteryEstimatedTime 0
        (some (.Ulong 7)) 4 0 0).Buffer ≠ some (.Ulong BATTERY_UNKNOWN_TIME) := by
  have H := fun ResultValue => EstimatedTime_discharging
    (LoadBatteryTag (WdfWaitLockAcquire (SampleDevice SentinelGauge))).2 ResultValue
    STATUS_SUCCESS 1 STATUS_SUCCESS 0xFFFF rfl rfl (by decide) (by decide) (by decide)
    (by decide)
  have key : ∀ (ResultValue : Nat) (Buffer : Region),
      (AstonBatteryQueryInformation (SampleDevice SentinelGauge) 1 BatteryEstimatedTime 0
        (some Buffer) 4 0 ResultValue).Status = STATUS_SUCCESS ∧
      (AstonBatteryQueryInformation (SampleDevice SentinelGauge) 1 BatteryEstimatedTime 0
        (some Buffer) 4 0 ResultValue).Buffer = some (.Ulong ResultValue) := by
    intro ResultValue Buffer
    simp only [AstonBatteryQueryInformation, AstonBatteryQueryInformationSwitch, H]
    simp [LoadBatteryTag, WdfWaitLockAcquire, Record, SampleDevice, BatteryEstimatedTime,
      BatteryInformation, NT_SUCCESS_STATUS_SUCCESS, sizeof_ULONG, memcpy]
  refine ⟨key, ?_⟩
  rw [(key 0 (.Ulong 7)).2]
  decide

/-- C5: with a matching tag, `AtRate == 0`, a successful flag read with bit 0 or bit 1
set, a successful read of a 16-bit value `e` other than `0xFFFF` from the time-to-empty
register and a buffer of at least four bytes, the level `BatteryEstimatedTime` succeeds
with returned length 4 and result `e * 60`, a product that stays below 2^32. -/
theorem C5_estimated_time_is_minutes_times_sixty (Context : SURFACE_BATTERY_FDO_DATA)
    (BatteryTag : Nat) (Buffer : Region) (BufferLength ReturnedLength ResultValue : Nat)
    (sf flags se e : Nat)
    (hTag : BatteryTag = Context.BatteryTag)
    (hf : Context.I2CContext.Device Context.I2CContext.Reads 0x0A = ⟨sf, flags⟩)
    (he : Context.I2CContext.Device (Context.I2CContext.Reads + 1) 0x04 = ⟨se, e⟩)
    (hsf : NT_SUCCESS sf = true) (hse : NT_SUCCESS se = true)
    (hbit : flags.testBit 0 = true ∨ flags.testBit 1 = true)
    (he16 : e < 65536) (hne : e ≠ 0xFFFF) (hLen : 4 ≤ BufferLength) :
    let r := AstonBatteryQueryInformation Context BatteryTag BatteryEstimatedTime 0
      (some Buffer) BufferLength ReturnedLength ResultValue
    r.Status = STATUS_SUCCESS ∧ r.ReturnedLength = 4 ∧
    r.Buffer = some (.Ulong (e * 60)) ∧ e * 60 < 4294967296 := by
  subst hTag
  have H := EstimatedTime_discharging (LoadBatteryTag (WdfWaitLockAcquire Context)).2
    ResultValue sf flags se e hf he hsf hse hbit he16
  have hL : ¬ BufferLength < 4 := by omega
  simp only [AstonBatteryQueryInformation, AstonBatteryQueryInformationSwitch, H]
  simp [LoadBatteryTag, WdfWaitLockAcquire, Record, BatteryEstimatedTime,
    BatteryInformation, NT_SUCCESS_STATUS_SUCCESS, sizeof_ULONG, memcpy, hse, hne, hL,
    ULONG_MOD]
  omega

/-- C5 at a concrete input: the sample gauge reports 120 minutes, the result is 7200
seconds. -/
theorem C5_estimated_time_witness :
    (AstonBatteryQueryInformation (SampleDevice SampleGauge) 1 BatteryEstimatedTime 0
      (some (.Raw [])) 4 0 0).Status = STATUS_SUCCESS ∧
    (AstonBatteryQueryInformation (SampleDevice SampleGauge) 1 BatteryEstimatedTime 0
      (some (.Raw [])) 4 0 0).ReturnedLength = 4 ∧
    (AstonBatteryQueryInformation (SampleDevice SampleGauge) 1 BatteryEstimatedTime 0
      (some (.Raw [])) 4 0 0).Buffer = some (.Ulong 7200) ∧ 120 * 60 < 4294967296 :=
  C5_estimated_time_is_minutes_times_sixty (SampleDevice SampleGauge) 1 (.Raw []) 4 0 0
    STATUS_SUCCESS 1 STATUS_SUCCESS 120 rfl rfl rfl (by decide) (by decide) (by decide)
    (by decide) (by decide) (by decide)

/-- C6: with a matching tag and `AtRate != 0`, the level `BatteryEstimatedTime` composes
the result `BATTERY_UNKNOWN_TIME` and issues no register read, whatever the gauge would
reply: the read counter is unchanged and the trace gains only the lock acquisition, the
tag comparison and the lock release.  The result, four bytes long, is copied to a buffer
that can hold it; a null or shorter buffer is left alone with
`STATUS_BUFFER_TOO_SMALL`. -/
theorem C6_estimated_time_at_rate_unknown (Context : SURFACE_BATTERY_FDO_DATA)
    (AtRate : Int) (Buffer : Option Region) (BufferLength ReturnedLength ResultValue : Nat)
    (hRate : AtRate ≠ 0) :
    let r := AstonBatteryQueryInformation Context Context.BatteryTag BatteryEstimatedTime
      AtRate Buffer BufferLength ReturnedLength ResultValue
    (AstonBatteryQueryInformationSwitch (LoadBatteryTag (WdfWaitLockAcquire Context)).2
      BatteryEstimatedTime AtRate ResultValue).ReturnBuffer =
        some (.Ulong BATTERY_UNKNOWN_TIME) ∧
    r.Status = (if Buffer = none ∨ BufferLength < 4 then STATUS_BUFFER_TOO_SMALL
      else STATUS_SUCCESS) ∧
    r.Buffer = (if Buffer = none ∨ BufferLength < 4 then Buffer
      else some (.Ulong BATTERY_UNKNOWN_TIME)) ∧
    r.ReturnedLength = 4 ∧
    r.DevExt.I2CContext.Reads = Context.I2CContext.Reads ∧
    r.DevExt.Trace = Context.Trace ++ [.LockAcquire, .TagRead, .LockRelease] := by
  simp only [AstonBatteryQueryInformation, AstonBatteryQueryInformationSwitch,
    AstonBatteryQueryBatteryEstimatedTime, hRate]
  simp [LoadBatteryTag, WdfWaitLockAcquire, WdfWaitLockRelease, Record,
    BatteryEstimatedTime, BatteryInformation, NT_SUCCESS_STATUS_SUCCESS, sizeof_ULONG,
    memcpy, ULONG_MOD]
  split <;> simp_all

/-- C6 at a concrete input: a gauge on which every read fails, `AtRate = 5`. -/
theorem C6_estimated_time_at_rate_witness :
    (5 : Int) ≠ 0 ∧
    (AstonBatteryQueryInformation (SampleDevice DeadGauge) 1 BatteryEstimatedTime 5
      (some (.Raw [])) 4 0 0).Buffer = some (.Ulong BATTERY_UNKNOWN_TIME) ∧
    (AstonBatteryQueryInformation (SampleDevice DeadGauge) 1 BatteryEstimatedTime 5
      (some (.Raw [])) 4 0 0).DevExt.I2CContext.Reads = 0 :=
  have h := C6_estimated_time_at_rate_unknown (SampleDevice DeadGauge) 5 (some (.Raw []))
    4 0 0 (by decide)
  ⟨by decide, h.2.2.1, h.2.2.2.2.1⟩

/-- C7 as stated fails: with tag 1 matching, an 8-byte buffer and register 0x10 reading
the raw value 100, the level `BatteryGranularityInformation` does not deliver
`Capacity = 100 * 2 * 2 * 9 = 3600`; it delivers 1800. -/
theorem C7_granularity_capacity_is_not_3600 :
    ¬ ((AstonBatteryQueryInformation (SampleDevice SampleGauge) 1
          BatteryGranularityInformation 0 (some (.Raw [])) 8 0 0).Status = STATUS_SUCCESS ∧
       (AstonBatteryQueryInformation (SampleDevice SampleGauge) 1
          BatteryGranularityInformation 0 (some (.Raw [])) 8 0 0).Buffer =
         some (.ReportingScale { Granularity := 1, Capacity := 100 * 2 * 2 * 9 })) := by
  decide

/-- C7, amended: with a matching tag, a buffer of at least eight bytes and register 0x10
reading the raw value 100, the level `BatteryGranularityInformation` succeeds with
`Capacity = 100 * 2 * 9 = 1800` and `Granularity = 1`. -/
theorem C7_granularity_capacity_is_1800 (Context : SURFACE_BATTERY_FDO_DATA)
    (AtRate : Int) (Buffer : Region) (BufferLength ReturnedLength ResultValue s : Nat)
    (h : Context.I2CContext.Device Context.I2CContext.Reads 0x10 = ⟨s, 100⟩)
    (hs : NT_SUCCESS s = true) (hLen : sizeof_BATTERY_REPORTING_SCALE ≤ BufferLength) :
    let r := AstonBatteryQueryInformation Context Context.BatteryTag
      BatteryGranularityInformation AtRate (some Buffer) BufferLength ReturnedLength
      ResultValue
    r.Status = STATUS_SUCCESS ∧
    r.ReturnedLength = sizeof_BATTERY_REPORTING_SCALE ∧
    r.Buffer = some (.ReportingScale { Granularity := 1, Capacity := 100 * 2 * 9 }) := by
  have hL : ¬ BufferLength < 8 := by
    simp only [sizeof_BATTERY_REPORTING_SCALE] at hLen; omega
  simp [AstonBatteryQueryInformation, AstonBatteryQueryInformationSwitch,
    SpbReadDataSynchronously, StoreBytes, AstonBatteryConvertMAHToMWH, WdfWaitLockAcquire,
    LoadBatteryTag, Record, h, hs, hL, ULONG_MOD, NT_SUCCESS_STATUS_SUCCESS,
    sizeof_BATTERY_REPORTING_SCALE, memcpy, BatteryGranularityInformation,
    BatteryInformation, BatteryEstimatedTime, BatteryUniqueID, BatteryManufactureName,
    BatteryDeviceName, BatterySerialNumber, BatteryManufactureDate]

/-- C7, amended, at a concrete input: the sample gauge, whose register 0x10 reads 100. -/
theorem C7_granularity_capacity_witness :
    (AstonBatteryQueryInformation (SampleDevice SampleGauge) 1
        BatteryGranularityInformation 0 (some (.Raw [])) 8 0 0).Status = STATUS_SUCCESS ∧
    (AstonBatteryQueryInformation (SampleDevice SampleGauge) 1
        BatteryGranularityInformation 0 (some (.Raw [])) 8 0 0).ReturnedLength =
      sizeof_BATTERY_REPORTING_SCALE ∧
    (AstonBatteryQueryInformation (SampleDevice SampleGauge) 1
        BatteryGranularityInformation 0 (some (.Raw [])) 8 0 0).Buffer =
      some (.ReportingScale { Granularity := 1, Capacity := 100 * 2 * 9 }) :=
  C7_granularity_capacity_is_1800 (SampleDevice SampleGauge) 0 (.Raw []) 8 0 0
    STATUS_SUCCESS rfl (by decide) (by decide)

set_option maxRecDepth 100000 in
/-- The unique-identifier string measures 32 bytes without its terminator. -/
theorem RtlStringCbLengthW_UniqueID :
    RtlStringCbLengthW (swprintf_s UniqueIDText) (MAX_BATTERY_STRING_SIZE * sizeof_WCHAR) =
      (STATUS_SUCCESS, 32) := by decide

set_option maxRecDepth 100000 in
/-- The manufacturer name measures 14 bytes without its terminator. -/
theorem RtlStringCbLengthW_ManufactureName :
    RtlStringCbLengthW (swprintf_s ManufactureNameText)
      (MAX_BATTERY_STRING_SIZE * sizeof_WCHAR) = (STATUS_SUCCESS, 14) := by decide

set_option maxRecDepth 100000 in
/-- The device name measures 12 bytes without its terminator. -/
theorem RtlStringCbLengthW_DeviceName :
    RtlStringCbLengthW (swprintf_s DeviceNameText) (MAX_BATTERY_STRING_SIZE * sizeof_WCHAR) =
      (STATUS_SUCCESS, 12) := by decide

set_option maxRecDepth 100000 in
/-- The serial number measures 8 bytes without its terminator. -/
theorem RtlStringCbLengthW_SerialNumber :
    RtlStringCbLengthW (swprintf_s SerialNumberText)
      (MAX_BATTERY_STRING_SIZE * sizeof_WCHAR) = (STATUS_SUCCESS, 8) := by decide

/-- A string case whose text measures `n` bytes succeeds with the array as result and
length `n + 2`. -/
theorem QueryInformationString_eq (DevExt : SURFACE_BATTERY_FDO_DATA) (Text : List Nat)
    (n : Nat)
    (h : RtlStringCbLengthW (swprintf_s Text) (MAX_BATTERY_STRING_SIZE * sizeof_WCHAR) =
      (STATUS_SUCCESS, n)) :
    QueryInformationString DevExt Text =
      { Status := STATUS_SUCCESS, ReturnBuffer := some (.WideString (swprintf_s Text)),
        ReturnBufferLength := n + sizeof_WCHAR, DevExt := DevExt } := by
  simp only [QueryInformationString, h, NT_SUCCESS_STATUS_SUCCESS]
  simp

/-- The exit shape holds of a conditional when it holds of both branches. -/
theorem ExitShape_ite {c : Prop} [Decidable c] {a b : QueryInformationExit}
    (ha : c → ExitShape a) (hb : ¬ c → ExitShape b) : ExitShape (if c then a else b) := by
  by_cases h : c
  · rw [if_pos h]; exact ha h
  · rw [if_neg h]; exact hb h

/-- State at the label `Exit` of `AstonBatteryQueryInformation`: either the status is a
success and a result of positive length is attached, or the status is a failure and no
result is attached. -/
theorem Switch_exit_shape (DevExt : SURFACE_BATTERY_FDO_DATA) (Level AtRate : Int)
    (ResultValue : Nat) :
    ExitShape (AstonBatteryQueryInformationSwitch DevExt Level AtRate ResultValue) := by
  simp only [AstonBatteryQueryInformationSwitch,
    QueryInformationString_eq _ _ _ RtlStringCbLengthW_UniqueID,
    QueryInformationString_eq _ _ _ RtlStringCbLengthW_ManufactureName,
    QueryInformationString_eq _ _ _ RtlStringCbLengthW_DeviceName,
    QueryInformationString_eq _ _ _ RtlStringCbLengthW_SerialNumber]
  repeat' first | apply ExitShape_ite | intro _
  all_goals first
    | exact Or.inr ⟨by assumption, rfl, rfl⟩
    | exact Or.inr ⟨NT_SUCCESS_STATUS_INVALID_PARAMETER, rfl, rfl⟩
    | exact Or.inl ⟨NT_SUCCESS_STATUS_SUCCESS, ⟨_, rfl⟩,
        by simp [sizeof_BATTERY_INFORMATION, sizeof_ULONG, sizeof_WCHAR,
          sizeof_BATTERY_MANUFACTURE_DATE, sizeof_BATTERY_REPORTING_SCALE],
        by simp [sizeof_BATTERY_INFORMATION, sizeof_ULONG, sizeof_WCHAR,
          sizeof_BATTERY_MANUFACTURE_DATE, sizeof_BATTERY_REPORTING_SCALE]⟩

/-- C8: with a matching tag, whenever the `switch` composed a result successfully, of
byte length `L`, and the caller's buffer is null or shorter than `L`,
`AstonBatteryQueryInformation` returns `STATUS_BUFFER_TOO_SMALL`, stores `L` in
`*ReturnedLength` and leaves the buffer as it was; `L` is positive. -/
theorem C8_buffer_too_small_reports_required_length (Context : SURFACE_BATTERY_FDO_DATA)
    (Level AtRate : Int) (Buffer : Option Region)
    (BufferLength ReturnedLength ResultValue : Nat)
    (hOk : NT_SUCCESS (AstonBatteryQueryInformationSwitch
      (LoadBatteryTag (WdfWaitLockAcquire Context)).2 Level AtRate ResultValue).Status = true)
    (hSmall : Buffer = none ∨ BufferLength < (AstonBatteryQueryInformationSwitch
      (LoadBatteryTag (WdfWaitLockAcquire Context)).2 Level AtRate
      ResultValue).ReturnBufferLength) :
    let L := (AstonBatteryQueryInformationSwitch
      (LoadBatteryTag (WdfWaitLockAcquire Context)).2 Level AtRate
      ResultValue).ReturnBufferLength
    let r := AstonBatteryQueryInformation Context Context.BatteryTag Level AtRate Buffer
      BufferLength ReturnedLength ResultValue
    r.Status = STATUS_BUFFER_TOO_SMALL ∧ r.ReturnedLength = L ∧ r.Buffer = Buffer ∧ 0 < L := by
  rcases Switch_exit_shape (LoadBatteryTag (WdfWaitLockAcquire Context)).2 Level AtRate
    ResultValue with ⟨_, ⟨Source, hSrc⟩, hPos, hLe⟩ | ⟨hFail, _, _⟩
  · have hTag : (LoadBatteryTag (WdfWaitLockAcquire Context)).1 = Context.BatteryTag := rfl
    have hMod : (AstonBatteryQueryInformationSwitch
        (LoadBatteryTag (WdfWaitLockAcquire Context)).2 Level AtRate
        ResultValue).ReturnBufferLength % ULONG_MOD =
        (AstonBatteryQueryInformationSwitch
        (LoadBatteryTag (WdfWaitLockAcquire Context)).2 Level AtRate
        ResultValue).ReturnBufferLength :=
      Nat.mod_eq_of_lt (by simp only [ULONG_MOD]; omega)
    simp only [AstonBatteryQueryInformation, hTag, ne_eq, not_true_eq_false, if_false, hOk,
      if_true, hSrc, hSmall, hMod]
    exact ⟨trivial, trivial, trivial, hPos⟩
  · rw [hFail] at hOk
    exact absurd hOk (by decide)

/-- C8 at a concrete input: `BatteryInformation` on the sample gauge with a 35-byte
buffer; the required length reported is `sizeof(BATTERY_INFORMATION)`, 36. -/
theorem C8_buffer_too_small_witness :
    (AstonBatteryQueryInformation (SampleDevice SampleGauge) 1 BatteryInformation 0
      (some (.Raw [])) 35 0 0).Status = STATUS_BUFFER_TOO_SMALL ∧
    (AstonBatteryQueryInformation (SampleDevice SampleGauge) 1 BatteryInformation 0
      (some (.Raw [])) 35 0 0).ReturnedLength = 36 ∧
    (AstonBatteryQueryInformation (SampleDevice SampleGauge) 1 BatteryInformation 0
      (some (.Raw [])) 35 0 0).Buffer = some (.Raw []) :=
  have h := C8_buffer_too_small_reports_required_length (SampleDevice SampleGauge)
    BatteryInformation 0 (some (.Raw [])) 35 0 0 (by decide) (Or.inr (by decide))
  ⟨h.1, h.2.1, h.2.2.1⟩

/-- C9: with a matching tag and a level that is none of the nine enumerated information
levels, `AstonBatteryQueryInformation` returns `STATUS_INVALID_PARAMETER`, stores 0 in
`*ReturnedLength`, leaves the caller's buffer as it was and issues no register read. -/
theorem C9_unrecognized_level_invalid_parameter (Context : SURFACE_BATTERY_FDO_DATA)
    (Level AtRate : Int) (Buffer : Option Region)
    (BufferLength ReturnedLength ResultValue : Nat)
    (h0 : Level ≠ BatteryInformation) (h1 : Level ≠ BatteryEstimatedTime)
    (h2 : Level ≠ BatteryUniqueID) (h3 : Level ≠ BatteryManufactureName)
    (h4 : Level ≠ BatteryDeviceName) (h5 : Level ≠ BatterySerialNumber)
    (h6 : Level ≠ BatteryManufactureDate) (h7 : Level ≠ BatteryGranularityInformation)
    (h8 : Level ≠ BatteryTemperature) :
    let r := AstonBatteryQueryInformation Context Context.BatteryTag Level AtRate Buffer
      BufferLength ReturnedLength ResultValue
    r.Status = STATUS_INVALID_PARAMETER ∧ r.ReturnedLength = 0 ∧ r.Buffer = Buffer ∧
    r.DevExt.I2CContext.Reads = Context.I2CContext.Reads ∧
    r.DevExt.Trace = Context.Trace ++ [.LockAcquire, .TagRead, .LockRelease] := by
  have hTag : (LoadBatteryTag (WdfWaitLockAcquire Context)).1 = Context.BatteryTag := rfl
  simp only [AstonBatteryQueryInformation, AstonBatteryQueryInformationSwitch, hTag, ne_eq,
    not_true_eq_false, if_false, h0, h1, h2, h3, h4, h5, h6, h7, h8,
    NT_SUCCESS_STATUS_INVALID_PARAMETER]
  simp [LoadBatteryTag, WdfWaitLockAcquire, WdfWaitLockRelease, Record]

/-- C9 at a concrete input: level 9, one past the last enumerator, and level -1. -/
theorem C9_unrecognized_level_witness :
    (AstonBatteryQueryInformation (SampleDevice SampleGauge) 1 9 0 (some (.Raw [])) 64 7
      0).Status = STATUS_INVALID_PARAMETER ∧
    (AstonBatteryQueryInformation (SampleDevice SampleGauge) 1 9 0 (some (.Raw [])) 64 7
      0).ReturnedLength = 0 ∧
    (AstonBatteryQueryInformation (SampleDevice SampleGauge) 1 (-1) 0 (some (.Raw [])) 64 7
      0).Status = STATUS_INVALID_PARAMETER :=
  have h := C9_unrecognized_level_invalid_parameter (SampleDevice SampleGauge) 9 0
    (some (.Raw [])) 64 7 0 (by decide) (by decide) (by decide) (by decide) (by decide)
    (by decide) (by decide) (by decide) (by decide)
  have g := C9_unrecognized_level_invalid_parameter (SampleDevice SampleGauge) (-1) 0
    (some (.Raw [])) 64 7 0 (by decide) (by decide) (by decide) (by decide) (by decide)
    (by decide) (by decide) (by decide) (by decide)
  ⟨h.1, h.2.1, g.1⟩

/-- C10, evaluated where it fails: tag 1 matches, the rate register reads 5 and the read
of the voltage register fails with `STATUS_IO_DEVICE_ERROR`.  `AstonBatteryQueryStatus`
returns that status, yet the caller's record, which held power state 1 and rate 0 before
the call, holds power state `BATTERY_DISCHARGING` and rate 5 after it. -/
theorem C10_failed_voltage_read_leaves_partial_status :
    (AstonBatteryQueryStatus (SampleDevice VoltageFailGauge) 1
      { PowerState := 1, Capacity := 0, Voltage := 0, Rate := 0 }).Status =
        STATUS_IO_DEVICE_ERROR ∧
    (AstonBatteryQueryStatus (SampleDevice VoltageFailGauge) 1
      { PowerState := 1, Capacity := 0, Voltage := 0, Rate := 0 }).BatteryStatus =
        { PowerState := BATTERY_DISCHARGING, Capacity := 0, Voltage := 0, Rate := 5 } ∧
    (AstonBatteryQueryStatus (SampleDevice VoltageFailGauge) 1
      { PowerState := 1, Capacity := 0, Voltage := 0, Rate := 0 }).BatteryStatus ≠
        { PowerState := 1, Capacity := 0, Voltage := 0, Rate := 0 } := by
  decide

/-- C11, evaluated where it fails: tag 2 is presented to a device whose tag is 1.
`AstonBatteryQueryInformation` returns `STATUS_NO_SUCH_DEVICE` and `*ReturnedLength`
holds after the call whatever it held before, for every prior content; with 7 before
the call it is 7 and not 0 after it. -/
theorem C11_tag_mismatch_keeps_returned_length :
    (∀ (Level AtRate : Int) (Buffer : Option Region)
        (BufferLength ReturnedLength ResultValue : Nat),
      (AstonBatteryQueryInformation (SampleDevice SampleGauge) 2 Level AtRate Buffer
        BufferLength ReturnedLength ResultValue).Status = STATUS_NO_SUCH_DEVICE ∧
      (AstonBatteryQueryInformation (SampleDevice SampleGauge) 2 Level AtRate Buffer
        BufferLength ReturnedLength ResultValue).ReturnedLength = ReturnedLength) ∧
    (AstonBatteryQueryInformation (SampleDevice SampleGauge) 2 BatteryInformation 0
        (some (.Raw [])) 36 7 0).ReturnedLength ≠ 0 := by
  have key : ∀ (Level AtRate : Int) (Buffer : Option Region)
      (BufferLength ReturnedLength ResultValue : Nat),
      (AstonBatteryQueryInformation (SampleDevice SampleGauge) 2 Level AtRate Buffer
        BufferLength ReturnedLength ResultValue).Status = STATUS_NO_SUCH_DEVICE ∧
      (AstonBatteryQueryInformation (SampleDevice SampleGauge) 2 Level AtRate Buffer
        BufferLength ReturnedLength ResultValue).ReturnedLength = ReturnedLength := by
    intro Level AtRate Buffer BufferLength ReturnedLength ResultValue
    simp [AstonBatteryQueryInformation, WdfWaitLockAcquire, LoadBatteryTag, Record,
      SampleDevice]
  refine ⟨key, ?_⟩
  rw [(key _ _ _ _ _ _).2]
  decide

/-- C12: with a matching tag `AstonBatterySetInformation` returns `STATUS_SUCCESS`, the
only success status it can return, exactly when the level is `BatteryCharge` or
`BatteryDischarge` (any payload, `NULL` included) or the level is one of
`BatteryChargingSource`, `BatteryCriticalBias`, `BatteryChargerId`,
`BatteryChargerStatus` and the payload is not `NULL`.  In every case the battery tag is
unchanged and no register read is issued. -/
theorem C12_set_information_success_iff (Context : SURFACE_BATTERY_FDO_DATA) (Level : Int)
    (Buffer : Option Region) :
    ((AstonBatterySetInformation Context Context.BatteryTag Level Buffer).Status =
        STATUS_SUCCESS ↔
      (Level = BatteryCharge ∨ Level = BatteryDischarge ∨
        ((Level = BatteryChargingSource ∨ Level = BatteryCriticalBias ∨
          Level = BatteryChargerId ∨ Level = BatteryChargerStatus) ∧ Buffer ≠ none))) ∧
    (NT_SUCCESS (AstonBatterySetInformation Context Context.BatteryTag Level Buffer).Status
        = true ↔
      (AstonBatterySetInformation Context Context.BatteryTag Level Buffer).Status =
        STATUS_SUCCESS) ∧
    (AstonBatterySetInformation Context Context.BatteryTag BatteryCharge none).Status =
      STATUS_SUCCESS ∧
    (AstonBatterySetInformation Context Context.BatteryTag Level Buffer).DevExt.BatteryTag =
      Context.BatteryTag ∧
    (AstonBatterySetInformation Context Context.BatteryTag Level
      Buffer).DevExt.I2CContext.Reads = Context.I2CContext.Reads ∧
    (AstonBatterySetInformation Context Context.BatteryTag Level Buffer).DevExt.Trace =
      Context.Trace ++ [.LockAcquire, .TagRead, .LockRelease] := by
  have e1 : NT_SUCCESS STATUS_INVALID_PARAMETER_4 = false := by decide
  have e2 : NT_SUCCESS STATUS_NOT_SUPPORTED = false := by decide
  have n1 : STATUS_INVALID_PARAMETER_4 ≠ STATUS_SUCCESS := by decide
  have n2 : STATUS_NOT_SUPPORTED ≠ STATUS_SUCCESS := by decide
  simp only [AstonBatterySetInformation, WdfWaitLockAcquire, WdfWaitLockRelease,
    LoadBatteryTag, Record, ne_eq, not_true_eq_false, if_false, if_true, List.append_assoc,
    List.singleton_append, List.cons_append, List.nil_append, and_true]
  refine ⟨?_, ?_⟩
  · by_cases h1 : Level = BatteryCharge
    · simp [h1]
    by_cases h2 : Level = BatteryDischarge
    · simp [h2]
    by_cases hb : Buffer = none
    · simp [h1, h2, hb, n1]
    by_cases h3 : Level = BatteryChargingSource
    · simp [h1, h2, hb, h3]
    by_cases h4 : Level = BatteryCriticalBias
    · simp [h1, h2, hb, h3, h4]
    by_cases h5 : Level = BatteryChargerId
    · simp [h1, h2, hb, h3, h4, h5]
    by_cases h6 : Level = BatteryChargerStatus
    · simp [h1, h2, hb, h3, h4, h5, h6]
    simp [h1, h2, hb, h3, h4, h5, h6, n2]
  · by_cases h1 : Level = BatteryCharge
    · simp [h1, NT_SUCCESS_STATUS_SUCCESS]
    by_cases h2 : Level = BatteryDischarge
    · simp [h1, h2, NT_SUCCESS_STATUS_SUCCESS]
    by_cases hb : Buffer = none
    · simp [h1, h2, hb, n1, e1]
    by_cases h3 : Level = BatteryChargingSource
    · simp [h1, h2, hb, h3, NT_SUCCESS_STATUS_SUCCESS]
    by_cases h4 : Level = BatteryCriticalBias
    · simp [h1, h2, hb, h3, h4, NT_SUCCESS_STATUS_SUCCESS]
    by_cases h5 : Level = BatteryChargerId
    · simp [h1, h2, hb, h3, h4, h5, NT_SUCCESS_STATUS_SUCCESS]
    by_cases h6 : Level = BatteryChargerStatus
    · simp [h1, h2, hb, h3, h4, h5, h6, NT_SUCCESS_STATUS_SUCCESS]
    simp [h1, h2, hb, h3, h4, h5, h6, n2, e2]

/-- C13 as stated fails: with tag 1 matching, `AstonBatterySetInformation` called for
`BatteryChargingSource` with a `NULL` payload does not return `STATUS_INVALID_PARAMETER`,
the status `AstonBatteryQueryInformation` returns for the unsupported level 9. -/
theorem C13_null_payload_is_not_invalid_parameter :
    ¬ ((AstonBatterySetInformation (SampleDevice SampleGauge) 1 BatteryChargingSource
          none).Status = STATUS_INVALID_PARAMETER ∧
       (AstonBatterySetInformation (SampleDevice SampleGauge) 1 BatteryChargingSource
          none).Status =
       (AstonBatteryQueryInformation (SampleDevice SampleGauge) 1 9 0 (some (.Raw [])) 64 0
          0).Status) := by
  decide

/-- C13, amended: with a matching tag, a level other than `BatteryCharge` and
`BatteryDischarge` (recognised or not) and a `NULL` payload,
`AstonBatterySetInformation` fails with `STATUS_INVALID_PARAMETER_4`; that status is a
failure and is a different code from the `STATUS_INVALID_PARAMETER` that
`AstonBatteryQueryInformation` returns for an unsupported level. -/
theorem C13_null_payload_invalid_parameter_4 (Context : SURFACE_BATTERY_FDO_DATA)
    (Level : Int) (hCharge : Level ≠ BatteryCharge) (hDischarge : Level ≠ BatteryDischarge) :
    (AstonBatterySetInformation Context Context.BatteryTag Level none).Status =
      STATUS_INVALID_PARAMETER_4 ∧
    NT_SUCCESS STATUS_INVALID_PARAMETER_4 = false ∧
    STATUS_INVALID_PARAMETER_4 ≠ STATUS_INVALID_PARAMETER := by
  refine ⟨?_, by decide, by decide⟩
  simp [AstonBatterySetInformation, WdfWaitLockAcquire, LoadBatteryTag, Record, hCharge,
    hDischarge]

/-- C13, amended, at concrete inputs: `BatteryChargingSource` and the unrecognised level
17, each with a `NULL` payload. -/
theorem C13_null_payload_witness :
    (AstonBatterySetInformation (SampleDevice SampleGauge) 1 BatteryChargingSource
      none).Status = STATUS_INVALID_PARAMETER_4 ∧
    (AstonBatterySetInformation (SampleDevice SampleGauge) 1 17 none).Status =
      STATUS_INVALID_PARAMETER_4 :=
  ⟨(C13_null_payload_invalid_parameter_4 (SampleDevice SampleGauge) BatteryChargingSource
      (by decide) (by decide)).1,
   (C13_null_payload_invalid_parameter_4 (SampleDevice SampleGauge) 17 (by decide)
      (by decide)).1⟩

/-- C14: with a matching tag, a payload that is not `NULL` and a level outside
`BatteryCharge`, `BatteryDischarge`, `BatteryChargingSource`, `BatteryCriticalBias`,
`BatteryChargerId`, `BatteryChargerStatus`, `AstonBatterySetInformation` fails with
`STATUS_NOT_SUPPORTED`. -/
theorem C14_unrecognized_set_level_not_supported (Context : SURFACE_BATTERY_FDO_DATA)
    (Level : Int) (Payload : Region)
    (h1 : Level ≠ BatteryCharge) (h2 : Level ≠ BatteryDischarge)
    (h3 : Level ≠ BatteryChargingSource) (h4 : Level ≠ BatteryCriticalBias)
    (h5 : Level ≠ BatteryChargerId) (h6 : Level ≠ BatteryChargerStatus) :
    (AstonBatterySetInformation Context Context.BatteryTag Level (some Payload)).Status =
      STATUS_NOT_SUPPORTED ∧
    NT_SUCCESS STATUS_NOT_SUPPORTED = false := by
  refine ⟨?_, by decide⟩
  simp [AstonBatterySetInformation, WdfWaitLockAcquire, LoadBatteryTag, Record, h1, h2, h3,
    h4, h5, h6]

/-- C14 at concrete inputs: the levels 6 and -1 with a four-byte payload. -/
theorem C14_unrecognized_set_level_witness :
    (AstonBatterySetInformation (SampleDevice SampleGauge) 1 6 (some (.Ulong 0))).Status =
      STATUS_NOT_SUPPORTED ∧
    (AstonBatterySetInformation (SampleDevice SampleGauge) 1 (-1) (some (.Ulong 0))).Status =
      STATUS_NOT_SUPPORTED :=
  ⟨(C14_unrecognized_set_level_not_supported (SampleDevice SampleGauge) 6 (.Ulong 0)
      (by decide) (by decide) (by decide) (by decide) (by decide) (by decide)).1,
   (C14_unrecognized_set_level_not_supported (SampleDevice SampleGauge) (-1) (.Ulong 0)
      (by decide) (by decide) (by decide) (by decide) (by decide) (by decide)).1⟩

/-- C15: with a matching tag and the reads of rate (0x0C), voltage (0x08) and
percentage (0x10) succeeding with 16-bit values, `AstonBatteryQueryStatus` issues exactly
these three reads in this order, returns `STATUS_SUCCESS` and leaves in the caller's
record `PowerState = BATTERY_DISCHARGING`, `Voltage = v` and
`Capacity = 18 * p = AstonBatteryConvertMAHToMWH (2 * p)`, an equality between natural
numbers; the initial values 8000 and 24750 * 2 of the locals do not show. -/
theorem C15_query_status_snapshot (Context : SURFACE_BATTERY_FDO_DATA)
    (BatteryStatus : BATTERY_STATUS) (sr rate sv v sp p : Nat)
    (hr : Context.I2CContext.Device Context.I2CContext.Reads 0x0C = ⟨sr, rate⟩)
    (hv : Context.I2CContext.Device (Context.I2CContext.Reads + 1) 0x08 = ⟨sv, v⟩)
    (hp : Context.I2CContext.Device (Context.I2CContext.Reads + 2) 0x10 = ⟨sp, p⟩)
    (hsr : NT_SUCCESS sr = true) (hsv : NT_SUCCESS sv = true) (hsp : NT_SUCCESS sp = true)
    (hv16 : v < 65536) (hp16 : p < 65536) :
    let r := AstonBatteryQueryStatus Context Context.BatteryTag BatteryStatus
    r.Status = STATUS_SUCCESS ∧
    r.BatteryStatus.PowerState = BATTERY_DISCHARGING ∧
    r.BatteryStatus.Voltage = v ∧
    r.BatteryStatus.Capacity = 18 * p ∧
    AstonBatteryConvertMAHToMWH (2 * p) = 18 * p ∧
    r.DevExt.Trace = Context.Trace ++
      [.LockAcquire, .TagRead, .SpbRead 0x0C 2, .SpbRead 0x08 2, .SpbRead 0x10 2,
       .LockRelease] ∧
    r.DevExt.I2CContext.Reads = Context.I2CContext.Reads + 3 := by
  have e1 : p * 2 % 4294967296 * 9 % 4294967296 = 18 * p := by omega
  have e2 : 2 * p * 9 % 4294967296 = 18 * p := by omega
  have m1 : v % 65536 = v := Nat.mod_eq_of_lt hv16
  have m2 : p % 65536 = p := Nat.mod_eq_of_lt hp16
  simp [AstonBatteryQueryStatus, SpbReadDataSynchronously, StoreBytes,
    AstonBatteryConvertMAHToMWH, WdfWaitLockAcquire, WdfWaitLockRelease, LoadBatteryTag,
    Record, hr, hv, hp, hsr, hsv, hsp, ULONG_MOD, m1, m2, e1, e2]

/-- C15 at a concrete input: the sample gauge (rate 5, voltage 4000, percentage 100). -/
theorem C15_query_status_witness :
    let r := AstonBatteryQueryStatus (SampleDevice SampleGauge) 1 ⟨0, 0, 0, 0⟩
    r.Status = STATUS_SUCCESS ∧
    r.BatteryStatus.PowerState = BATTERY_DISCHARGING ∧
    r.BatteryStatus.Voltage = 4000 ∧
    r.BatteryStatus.Capacity = 18 * 100 ∧
    AstonBatteryConvertMAHToMWH (2 * 100) = 18 * 100 ∧
    r.DevExt.Trace = [] ++
      [.LockAcquire, .TagRead, .SpbRead 0x0C 2, .SpbRead 0x08 2, .SpbRead 0x10 2,
       .LockRelease] ∧
    r.DevExt.I2CContext.Reads = 0 + 3 :=
  C15_query_status_snapshot (SampleDevice SampleGauge) ⟨0, 0, 0, 0⟩ STATUS_SUCCESS 5
    STATUS_SUCCESS 4000 STATUS_SUCCESS 100 rfl rfl rfl (by decide) (by decide) (by decide)
    (by decide) (by decide)

/-- C16: with a matching tag, a buffer of at least `sizeof(BATTERY_REPORTING_SCALE)`
bytes and a successful read of the 16-bit value `r` from register 0x10, the level
`BatteryGranularityInformation` succeeds with
`Capacity = 18 * r = AstonBatteryConvertMAHToMWH (2 * r)`, an equality between natural
numbers in which the initial 8000 of the local does not show, `Granularity = 1` and
returned length `sizeof(BATTERY_REPORTING_SCALE)`. -/
theorem C16_granularity_information (Context : SURFACE_BATTERY_FDO_DATA) (AtRate : Int)
    (Buffer : Region) (BufferLength ReturnedLength ResultValue s r : Nat)
    (h : Context.I2CContext.Device Context.I2CContext.Reads 0x10 = ⟨s, r⟩)
    (hs : NT_SUCCESS s = true) (hr : r < 65536)
    (hLen : sizeof_BATTERY_REPORTING_SCALE ≤ BufferLength) :
    let q := AstonBatteryQueryInformation Context Context.BatteryTag
      BatteryGranularityInformation AtRate (some Buffer) BufferLength ReturnedLength
      ResultValue
    q.Status = STATUS_SUCCESS ∧
    q.ReturnedLength = sizeof_BATTERY_REPORTING_SCALE ∧
    q.Buffer = some (.ReportingScale { Granularity := 1, Capacity := 18 * r }) ∧
    AstonBatteryConvertMAHToMWH (2 * r) = 18 * r ∧ 18 * r < 4294967296 := by
  have hL : ¬ BufferLength < 8 := by
    simp only [sizeof_BATTERY_REPORTING_SCALE] at hLen; omega
  have e1 : r * 2 % 4294967296 * 9 % 4294967296 = 18 * r := by omega
  have e2 : 2 * r * 9 % 4294967296 = 18 * r := by omega
  have m1 : r % 65536 = r := Nat.mod_eq_of_lt hr
  simp [AstonBatteryQueryInformation, AstonBatteryQueryInformationSwitch,
    SpbReadDataSynchronously, StoreBytes, AstonBatteryConvertMAHToMWH, WdfWaitLockAcquire,
    LoadBatteryTag, Record, h, hs, hL, ULONG_MOD, NT_SUCCESS_STATUS_SUCCESS,
    sizeof_BATTERY_REPORTING_SCALE, memcpy, BatteryGranularityInformation,
    BatteryInformation, BatteryEstimatedTime, BatteryUniqueID, BatteryManufactureName,
    BatteryDeviceName, BatterySerialNumber, BatteryManufactureDate, e1, e2, m1]
  omega

/-- C16 at a concrete input: a gauge whose every register reads `0xFFFF`, the largest
16-bit value, and an 8-byte buffer. -/
theorem C16_granularity_information_witness :
    let q := AstonBatteryQueryInformation (SampleDevice (fun _ _ => ⟨STATUS_SUCCESS, 0xFFFF⟩))
      1 BatteryGranularityInformation 0 (some (.Raw [])) 8 0 0
    q.Status = STATUS_SUCCESS ∧
    q.ReturnedLength = sizeof_BATTERY_REPORTING_SCALE ∧
    q.Buffer = some (.ReportingScale { Granularity := 1, Capacity := 18 * 0xFFFF }) ∧
    AstonBatteryConvertMAHToMWH (2 * 0xFFFF) = 18 * 0xFFFF ∧ 18 * 0xFFFF < 4294967296 :=
  C16_granularity_information (SampleDevice (fun _ _ => ⟨STATUS_SUCCESS, 0xFFFF⟩)) 0
    (.Raw []) 8 0 0 STATUS_SUCCESS 0xFFFF rfl (by decide) (by decide) (by decide)

/-- C18: `AstonBatterySetStatusNotify` returns `STATUS_NOT_SUPPORTED` when the presented
tag equals `DevExt->BatteryTag` and `STATUS_NO_SUCH_DEVICE` otherwise;
`AstonBatteryDisableStatusNotify` returns `STATUS_NOT_SUPPORTED` and leaves the device
extension untouched.  Neither issues a register read nor changes the battery tag. -/
theorem C18_status_notify_not_supported (Context : SURFACE_BATTERY_FDO_DATA)
    (BatteryTag : Nat) (BatteryNotify : Option Region) :
    (AstonBatterySetStatusNotify Context BatteryTag BatteryNotify).Status =
      (if BatteryTag = Context.BatteryTag then STATUS_NOT_SUPPORTED
       else STATUS_NO_SUCH_DEVICE) ∧
    (AstonBatterySetStatusNotify Context BatteryTag BatteryNotify).DevExt.BatteryTag =
      Context.BatteryTag ∧
    (AstonBatterySetStatusNotify Context BatteryTag BatteryNotify).DevExt.I2CContext.Reads =
      Context.I2CContext.Reads ∧
    (AstonBatterySetStatusNotify Context BatteryTag BatteryNotify).DevExt.Trace =
      Context.Trace ++ [.LockAcquire, .TagRead, .LockRelease] ∧
    (AstonBatteryDisableStatusNotify Context).Status = STATUS_NOT_SUPPORTED ∧
    (AstonBatteryDisableStatusNotify Context).DevExt = Context := by
  by_cases h : BatteryTag = Context.BatteryTag <;>
    simp [AstonBatterySetStatusNotify, AstonBatteryDisableStatusNotify, WdfWaitLockAcquire,
      WdfWaitLockRelease, LoadBatteryTag, Record, h]

/-- One call of `AstonBatteryUpdateTag` changes the battery tag. -/
theorem AstonBatteryUpdateTag_changes (DevExt : SURFACE_BATTERY_FDO_DATA) :
    (AstonBatteryUpdateTag DevExt).BatteryTag ≠ DevExt.BatteryTag := by
  unfold AstonBatteryUpdateTag
  simp only [LoadBatteryTag, StoreBatteryTag, Record]
  split
  · rename_i h
    simp only [BATTERY_TAG_INVALID, ULONG_MOD] at h ⊢
    omega
  · simp only [ULONG_MOD]
    omega

/-- The tag `AstonBatteryUpdateTag` leaves, as a function of the tag it finds. -/
theorem AstonBatteryUpdateTag_tag (DevExt : SURFACE_BATTERY_FDO_DATA) :
    (AstonBatteryUpdateTag DevExt).BatteryTag = UpdatedTag DevExt.BatteryTag := by
  by_cases h : (DevExt.BatteryTag + 1) % ULONG_MOD = BATTERY_TAG_INVALID <;>
    simp [AstonBatteryUpdateTag, UpdatedTag, LoadBatteryTag, StoreBatteryTag, Record, h]

/-- A tag that differs from `DevExt->BatteryTag` is refused by the four tag-gated
callbacks. -/
theorem stale_tag_refused (Context : SURFACE_BATTERY_FDO_DATA) (BatteryTag : Nat)
    (hTag : BatteryTag ≠ Context.BatteryTag)
    (Level AtRate SetLevel : Int) (Buffer Payload BatteryNotify : Option Region)
    (BufferLength ReturnedLength ResultValue : Nat) (BatteryStatus : BATTERY_STATUS) :
    (AstonBatteryQueryInformation Context BatteryTag Level AtRate Buffer BufferLength
        ReturnedLength ResultValue).Status = STATUS_NO_SUCH_DEVICE ∧
    (AstonBatteryQueryStatus Context BatteryTag BatteryStatus).Status =
        STATUS_NO_SUCH_DEVICE ∧
    (AstonBatterySetInformation Context BatteryTag SetLevel Payload).Status =
        STATUS_NO_SUCH_DEVICE ∧
    (AstonBatterySetStatusNotify Context BatteryTag BatteryNotify).Status =
        STATUS_NO_SUCH_DEVICE := by
  simp [AstonBatteryQueryInformation, AstonBatteryQueryStatus, AstonBatterySetInformation,
    AstonBatterySetStatusNotify, WdfWaitLockAcquire, LoadBatteryTag, Record, hTag]

/-- C20: for every battery tag `t`, one call of `AstonBatteryUpdateTag` leaves a tag
different from `t`, and a request that still carries `t` is then refused with
`STATUS_NO_SUCH_DEVICE` by `AstonBatteryQueryInformation`, `AstonBatteryQueryStatus`,
`AstonBatterySetInformation` and `AstonBatterySetStatusNotify`.  The values
`0xFFFFFFFE`, `0xFFFFFFFF` and 0 of `t` lead to the tags `0xFFFFFFFF`, 1 and 1. -/
theorem C20_update_tag_invalidates_old_tag (DevExt : SURFACE_BATTERY_FDO_DATA)
    (Level AtRate SetLevel : Int) (Buffer Payload BatteryNotify : Option Region)
    (BufferLength ReturnedLength ResultValue : Nat) (BatteryStatus : BATTERY_STATUS) :
    (AstonBatteryUpdateTag DevExt).BatteryTag ≠ DevExt.BatteryTag ∧
    (AstonBatteryQueryInformation (AstonBatteryUpdateTag DevExt) DevExt.BatteryTag Level
        AtRate Buffer BufferLength ReturnedLength ResultValue).Status =
      STATUS_NO_SUCH_DEVICE ∧
    (AstonBatteryQueryStatus (AstonBatteryUpdateTag DevExt) DevExt.BatteryTag
        BatteryStatus).Status = STATUS_NO_SUCH_DEVICE ∧
    (AstonBatterySetInformation (AstonBatteryUpdateTag DevExt) DevExt.BatteryTag SetLevel
        Payload).Status = STATUS_NO_SUCH_DEVICE ∧
    (AstonBatterySetStatusNotify (AstonBatteryUpdateTag DevExt) DevExt.BatteryTag
        BatteryNotify).Status = STATUS_NO_SUCH_DEVICE ∧
    (AstonBatteryUpdateTag { DevExt with BatteryTag := 0xFFFFFFFE }).BatteryTag =
      0xFFFFFFFF ∧
    (AstonBatteryUpdateTag { DevExt with BatteryTag := 0xFFFFFFFF }).BatteryTag = 1 ∧
    (AstonBatteryUpdateTag { DevExt with BatteryTag := 0 }).BatteryTag = 1 :=
  ⟨AstonBatteryUpdateTag_changes DevExt,
   (stale_tag_refused _ _ (AstonBatteryUpdateTag_changes DevExt).symm Level AtRate SetLevel
      Buffer Payload BatteryNotify BufferLength ReturnedLength ResultValue BatteryStatus).1,
   (stale_tag_refused _ _ (AstonBatteryUpdateTag_changes DevExt).symm Level AtRate SetLevel
      Buffer Payload BatteryNotify BufferLength ReturnedLength ResultValue BatteryStatus).2.1,
   (stale_tag_refused _ _ (AstonBatteryUpdateTag_changes DevExt).symm Level AtRate SetLevel
      Buffer Payload BatteryNotify BufferLength ReturnedLength
      ResultValue BatteryStatus).2.2.1,
   (stale_tag_refused _ _ (AstonBatteryUpdateTag_changes DevExt).symm Level AtRate SetLevel
      Buffer Payload BatteryNotify BufferLength ReturnedLength
      ResultValue BatteryStatus).2.2.2,
   (AstonBatteryUpdateTag_tag _).trans (show UpdatedTag 0xFFFFFFFE = 0xFFFFFFFF by decide),
   (AstonBatteryUpdateTag_tag _).trans (show UpdatedTag 0xFFFFFFFF = 1 by decide),
   (AstonBatteryUpdateTag_tag _).trans (show UpdatedTag 0 = 1 by decide)⟩

/-- The three reads of `AstonBatteryQueryBatteryInformation` stop at the first failure. -/
theorem QueryBatteryInformation_reads (D0 : SURFACE_BATTERY_FDO_DATA)
    (Info : BATTERY_INFORMATION) :
    ReadsAndStops [0x3C, 0x12, 0x2A] D0 (AstonBatteryQueryBatteryInformation D0 Info).Status
      (AstonBatteryQueryBatteryInformation D0 Info).DevExt := by
  cases h1 : NT_SUCCESS (D0.I2CContext.Device D0.I2CContext.Reads 0x3C).Status
  · refine ⟨[0x3C], ⟨[0x12, 0x2A], rfl⟩, by simp, ?_, ?_, by simp⟩
    · simp [AstonBatteryQueryBatteryInformation, SpbReadDataSynchronously, Record, h1]
    · intro k a hk hf
      rcases k with _ | k
      · simp at hk; subst hk
        simp [AstonBatteryQueryBatteryInformation, SpbReadDataSynchronously, Record, h1]
      · simp at hk
  cases h2 : NT_SUCCESS (D0.I2CContext.Device (D0.I2CContext.Reads + 1) 0x12).Status
  · refine ⟨[0x3C, 0x12], ⟨[0x2A], rfl⟩, by simp, ?_, ?_, by simp⟩
    · simp [AstonBatteryQueryBatteryInformation, SpbReadDataSynchronously, Record, h1, h2]
    · intro k a hk hf
      rcases k with _ | _ | k
      · simp at hk; subst hk
        simp [h1] at hf
      · simp at hk; subst hk
        simp [AstonBatteryQueryBatteryInformation, SpbReadDataSynchronously, Record, h1, h2]
      · simp at hk
  cases h3 : NT_SUCCESS (D0.I2CContext.Device (D0.I2CContext.Reads + 2) 0x2A).Status
  · refine ⟨[0x3C, 0x12, 0x2A], ⟨[], rfl⟩, by simp, ?_, ?_, by simp⟩
    · simp [AstonBatteryQueryBatteryInformation, SpbReadDataSynchronously, Record, h1, h2,
        h3]
    · intro k a hk hf
      rcases k with _ | _ | _ | k
      · simp at hk; subst hk
        simp [h1] at hf
      · simp at hk; subst hk
        simp [h2] at hf
      · simp at hk; subst hk
        simp [AstonBatteryQueryBatteryInformation, SpbReadDataSynchronously, Record, h1, h2,
          h3]
      · simp at hk
  · refine ⟨[0x3C, 0x12, 0x2A], ⟨[], rfl⟩, by simp, ?_, ?_, by simp⟩
    · simp [AstonBatteryQueryBatteryInformation, SpbReadDataSynchronously, Record, h1, h2,
        h3]
    · intro k a hk hf
      rcases k with _ | _ | _ | k
      · simp at hk; subst hk
        simp [h1] at hf
      · simp at hk; subst hk
        simp [h2] at hf
      · simp at hk; subst hk
        simp [h3] at hf
      · simp at hk

/-- The reads of `AstonBatteryQueryBatteryEstimatedTime` stop at the first failure; with
`AtRate != 0` there is none and the status is `STATUS_SUCCESS`. -/
theorem QueryBatteryEstimatedTime_reads (D0 : SURFACE_BATTERY_FDO_DATA) (AtRate : Int)
    (ResultValue : Nat) :
    ReadsAndStops (if AtRate = 0 then [0x0A, 0x04] else []) D0
      (AstonBatteryQueryBatteryEstimatedTime D0 AtRate ResultValue).Status
      (AstonBatteryQueryBatteryEstimatedTime D0 AtRate ResultValue).DevExt := by
  by_cases hA : AtRate = 0
  swap
  · refine ⟨[], by simp [hA], by simp [hA], ?_, by simp, ?_⟩
    · simp [AstonBatteryQueryBatteryEstimatedTime, hA]
    · intro _
      simp [AstonBatteryQueryBatteryEstimatedTime, hA]
  rw [if_pos hA]
  cases h1 : NT_SUCCESS (D0.I2CContext.Device D0.I2CContext.Reads 0x0A).Status
  · have hE : AstonBatteryQueryBatteryEstimatedTime D0 AtRate ResultValue =
        { Status := (D0.I2CContext.Device D0.I2CContext.Reads 0x0A).Status,
          Value := ResultValue, DevExt := (SpbReadDataSynchronously D0 0x0A 2).2 } := by
      unfold AstonBatteryQueryBatteryEstimatedTime
      simp only [SpbReadDataSynchronously, Record, hA, h1, if_true]
    rw [hE]
    refine ⟨[0x0A], ⟨[0x04], rfl⟩, by simp, ?_, ?_, by simp⟩
    · simp [SpbReadDataSynchronously, Record]
    · intro k a hk hf
      rcases k with _ | k
      · simp at hk; subst hk; simp
      · simp at hk
  by_cases hb : (StoreBytes 0 (D0.I2CContext.Device D0.I2CContext.Reads 0x0A).Data 2 % 256
      &&& (1 <<< 0) ≠ 0 ∨
      StoreBytes 0 (D0.I2CContext.Device D0.I2CContext.Reads 0x0A).Data 2 % 256
      &&& (1 <<< 1) ≠ 0)
  swap
  · have hE : AstonBatteryQueryBatteryEstimatedTime D0 AtRate ResultValue =
        { Status := (D0.I2CContext.Device D0.I2CContext.Reads 0x0A).Status,
          Value := BATTERY_UNKNOWN_TIME, DevExt := (SpbReadDataSynchronously D0 0x0A 2).2 } := by
      unfold AstonBatteryQueryBatteryEstimatedTime
      simp only [SpbReadDataSynchronously, Record, hA, h1, hb, if_true, if_false]
      simp
    rw [hE]
    refine ⟨[0x0A], ⟨[0x04], rfl⟩, by simp, ?_, ?_, by simp⟩
    · simp [SpbReadDataSynchronously, Record]
    · intro k a hk hf
      rcases k with _ | k
      · simp at hk; subst hk; simp
      · simp at hk
  have hE : (AstonBatteryQueryBatteryEstimatedTime D0 AtRate ResultValue).Status =
        (D0.I2CContext.Device (D0.I2CContext.Reads + 1) 0x04).Status ∧
      (AstonBatteryQueryBatteryEstimatedTime D0 AtRate ResultValue).DevExt =
        (SpbReadDataSynchronously (SpbReadDataSynchronously D0 0x0A 2).2 0x04 2).2 := by
    unfold AstonBatteryQueryBatteryEstimatedTime
    simp only [SpbReadDataSynchronously, Record, hA, h1, hb, if_true, if_false]
    cases h2 : NT_SUCCESS (D0.I2CContext.Device (D0.I2CContext.Reads + 1) 0x04).Status
    · simp
    · by_cases h4 : StoreBytes 0 (D0.I2CContext.Device (D0.I2CContext.Reads + 1) 0x04).Data 2
          = 0xFFFF <;> simp [h4]
  rw [hE.1, hE.2]
  refine ⟨[0x0A, 0x04], ⟨[], rfl⟩, by simp, ?_, ?_, by simp⟩
  · simp [SpbReadDataSynchronously, Record]
  · intro k a hk hf
    rcases k with _ | _ | k
    · simp at hk; subst hk
      simp [h1] at hf
    · simp at hk; subst hk; simp
    · simp at hk

/-- When the status of a stretch of reads is a success, none of them failed, and the
stretch keeps its description with `STATUS_SUCCESS` as status. -/
theorem ReadsAndStops_success {Plan : List Nat} {D0 D1 : SURFACE_BATTERY_FDO_DATA}
    {Status : Nat} (h : ReadsAndStops Plan D0 Status D1) (hs : NT_SUCCESS Status = true) :
    ReadsAndStops Plan D0 STATUS_SUCCESS D1 := by
  obtain ⟨Addresses, hp, hne, hD, hall, _⟩ := h
  refine ⟨Addresses, hp, hne, hD, ?_, fun _ => Or.inl rfl⟩
  intro k a hk hf
  have h1 := (hall k a hk hf).1
  rw [h1, hf] at hs
  exact absurd hs (by decide)

/-- One call of `SpbReadDataSynchronously` is a stretch of one read. -/
theorem SpbReadDataSynchronously_reads (D0 : SURFACE_BATTERY_FDO_DATA) (Address : Nat) :
    ReadsAndStops [Address] D0 (SpbReadDataSynchronously D0 Address 2).1.Status
      (SpbReadDataSynchronously D0 Address 2).2 := by
  refine ⟨[Address], ⟨[], rfl⟩, by simp, ?_, ?_, by simp⟩
  · simp [SpbReadDataSynchronously, Record]
  · intro k a hk hf
    rcases k with _ | k
    · simp at hk; subst hk; simp [SpbReadDataSynchronously]
    · simp at hk

/-- Code that issues no read and ends with `STATUS_SUCCESS` or
`STATUS_INVALID_PARAMETER`. -/
theorem ReadsAndStops_none (D0 : SURFACE_BATTERY_FDO_DATA) (Status : Nat)
    (h : Status = STATUS_SUCCESS ∨ Status = STATUS_INVALID_PARAMETER) :
    ReadsAndStops [] D0 Status D0 := by
  refine ⟨[], ⟨[], rfl⟩, by simp, by simp, ?_, fun _ => h⟩
  intro k a hk
  simp at hk

/-- The `switch` of `AstonBatteryQueryInformation` issues an initial segment of the
reads planned for the level and stops at the first failure, whose status it keeps. -/
theorem Switch_reads (D0 : SURFACE_BATTERY_FDO_DATA) (Level AtRate : Int)
    (ResultValue : Nat) :
    ReadsAndStops (ReadPlan Level AtRate) D0
      (AstonBatteryQueryInformationSwitch D0 Level AtRate ResultValue).Status
      (AstonBatteryQueryInformationSwitch D0 Level AtRate ResultValue).DevExt := by
  simp only [AstonBatteryQueryInformationSwitch,
    QueryInformationString_eq _ _ _ RtlStringCbLengthW_UniqueID,
    QueryInformationString_eq _ _ _ RtlStringCbLengthW_ManufactureName,
    QueryInformationString_eq _ _ _ RtlStringCbLengthW_DeviceName,
    QueryInformationString_eq _ _ _ RtlStringCbLengthW_SerialNumber]
  by_cases h0 : Level = BatteryInformation
  · have hP : ReadPlan Level AtRate = [0x3C, 0x12, 0x2A] := by simp [ReadPlan, h0]
    simp only [if_pos h0, hP]
    have H := QueryBatteryInformation_reads D0
      { Capabilities := 0, Technology := 0, Reserved := [0, 0, 0], Chemistry := [0, 0, 0, 0],
        DesignedCapacity := 0, FullChargedCapacity := 0, DefaultAlert1 := 0,
        DefaultAlert2 := 0, CriticalBias := 0, CycleCount := 0 }
    cases hs : NT_SUCCESS (AstonBatteryQueryBatteryInformation D0
      { Capabilities := 0, Technology := 0, Reserved := [0, 0, 0], Chemistry := [0, 0, 0, 0],
        DesignedCapacity := 0, FullChargedCapacity := 0, DefaultAlert1 := 0,
        DefaultAlert2 := 0, CriticalBias := 0, CycleCount := 0 }).Status
    · simpa using H
    · simpa using ReadsAndStops_success H hs
  simp only [if_neg h0]
  by_cases h1 : Level = BatteryEstimatedTime
  · have hP : ReadPlan Level AtRate = (if AtRate = 0 then [0x0A, 0x04] else []) := by
      simp [ReadPlan, h1, BatteryEstimatedTime, BatteryInformation]
    simp only [if_pos h1, hP]
    have H := QueryBatteryEstimatedTime_reads D0 AtRate ResultValue
    cases hs : NT_SUCCESS (AstonBatteryQueryBatteryEstimatedTime D0 AtRate ResultValue).Status
    · simpa using H
    · simpa using ReadsAndStops_success H hs
  simp only [if_neg h1]
  by_cases h2 : Level = BatteryUniqueID
  · have hP : ReadPlan Level AtRate = [] := by
      simp [ReadPlan, h2, BatteryUniqueID, BatteryEstimatedTime, BatteryInformation,
        BatteryGranularityInformation, BatteryTemperature]
    simp only [if_pos h2, hP]
    exact ReadsAndStops_none D0 _ (Or.inl rfl)
  simp only [if_neg h2]
  by_cases h3 : Level = BatteryManufactureName
  · have hP : ReadPlan Level AtRate = [] := by
      simp [ReadPlan, h3, BatteryManufactureName, BatteryEstimatedTime, BatteryInformation,
        BatteryGranularityInformation, BatteryTemperature]
    simp only [if_pos h3, hP]
    exact ReadsAndStops_none D0 _ (Or.inl rfl)
  simp only [if_neg h3]
  by_cases h4 : Level = BatteryDeviceName
  · have hP : ReadPlan Level AtRate = [] := by
      simp [ReadPlan, h4, BatteryDeviceName, BatteryEstimatedTime, BatteryInformation,
        BatteryGranularityInformation, BatteryTemperature]
    simp only [if_pos h4, hP]
    exact ReadsAndStops_none D0 _ (Or.inl rfl)
  simp only [if_neg h4]
  by_cases h5 : Level = BatterySerialNumber
  · have hP : ReadPlan Level AtRate = [] := by
      simp [ReadPlan, h5, BatterySerialNumber, BatteryEstimatedTime, BatteryInformation,
        BatteryGranularityInformation, BatteryTemperature]
    simp only [if_pos h5, hP]
    exact ReadsAndStops_none D0 _ (Or.inl rfl)
  simp only [if_neg h5]
  by_cases h6 : Level = BatteryManufactureDate
  · have hP : ReadPlan Level AtRate = [] := by
      simp [ReadPlan, h6, BatteryManufactureDate, BatteryEstimatedTime, BatteryInformation,
        BatteryGranularityInformation, BatteryTemperature]
    simp only [if_pos h6, hP]
    exact ReadsAndStops_none D0 _ (Or.inl rfl)
  simp only [if_neg h6]
  by_cases h7 : Level = BatteryGranularityInformation
  · have hP : ReadPlan Level AtRate = [0x10] := by
      simp [ReadPlan, h7, BatteryEstimatedTime, BatteryInformation,
        BatteryGranularityInformation]
    simp only [if_pos h7, hP]
    have H := SpbReadDataSynchronously_reads D0 0x10
    cases hs : NT_SUCCESS (SpbReadDataSynchronously D0 0x10 2).1.Status
    · simpa using H
    · simpa using ReadsAndStops_success H hs
  simp only [if_neg h7]
  by_cases h8 : Level = BatteryTemperature
  · have hP : ReadPlan Level AtRate = [0x06] := by
      simp [ReadPlan, h8, BatteryEstimatedTime, BatteryInformation,
        BatteryGranularityInformation, BatteryTemperature]
    simp only [if_pos h8, hP]
    have H := SpbReadDataSynchronously_reads D0 0x06
    cases hs : NT_SUCCESS (SpbReadDataSynchronously D0 0x06 2).1.Status
    · simpa using H
    · simpa using ReadsAndStops_success H hs
  simp only [if_neg h8]
  have hP : ReadPlan Level AtRate = [] := by
    simp [ReadPlan, h0, h1, h7, h8]
  rw [hP]
  exact ReadsAndStops_none D0 _ (Or.inr rfl)

/-- With a matching tag, `AstonBatteryQueryInformation` after the label `Exit`: the lock
is released on the device extension the `switch` left; a failure status is returned as
it is, with returned length 0 and the buffer untouched; a success status is returned as
it is or replaced by `STATUS_BUFFER_TOO_SMALL`. -/
theorem QueryInformation_after_exit (Context : SURFACE_BATTERY_FDO_DATA)
    (Level AtRate : Int) (Buffer : Option Region)
    (BufferLength ReturnedLength ResultValue : Nat) :
    (AstonBatteryQueryInformation Context Context.BatteryTag Level AtRate Buffer
      BufferLength ReturnedLength ResultValue).DevExt =
      WdfWaitLockRelease (AstonBatteryQueryInformationSwitch
        (LoadBatteryTag (WdfWaitLockAcquire Context)).2 Level AtRate ResultValue).DevExt ∧
    (NT_SUCCESS (AstonBatteryQueryInformationSwitch
        (LoadBatteryTag (WdfWaitLockAcquire Context)).2 Level AtRate ResultValue).Status
        = false →
      (AstonBatteryQueryInformation Context Context.BatteryTag Level AtRate Buffer
        BufferLength ReturnedLength ResultValue).Status =
        (AstonBatteryQueryInformationSwitch
          (LoadBatteryTag (WdfWaitLockAcquire Context)).2 Level AtRate ResultValue).Status ∧
      (AstonBatteryQueryInformation Context Context.BatteryTag Level AtRate Buffer
        BufferLength ReturnedLength ResultValue).ReturnedLength = 0 ∧
      (AstonBatteryQueryInformation Context Context.BatteryTag Level AtRate Buffer
        BufferLength ReturnedLength ResultValue).Buffer = Buffer) ∧
    (NT_SUCCESS (AstonBatteryQueryInformationSwitch
        (LoadBatteryTag (WdfWaitLockAcquire Context)).2 Level AtRate ResultValue).Status
        = true →
      (AstonBatteryQueryInformation Context Context.BatteryTag Level AtRate Buffer
        BufferLength ReturnedLength ResultValue).Status =
        (AstonBatteryQueryInformationSwitch
          (LoadBatteryTag (WdfWaitLockAcquire Context)).2 Level AtRate ResultValue).Status ∨
      (AstonBatteryQueryInformation Context Context.BatteryTag Level AtRate Buffer
        BufferLength ReturnedLength ResultValue).Status = STATUS_BUFFER_TOO_SMALL) := by
  have hTag : (LoadBatteryTag (WdfWaitLockAcquire Context)).1 = Context.BatteryTag := rfl
  simp only [AstonBatteryQueryInformation, hTag, ne_eq, not_true_eq_false, if_false]
  cases hs : NT_SUCCESS (AstonBatteryQueryInformationSwitch
      (LoadBatteryTag (WdfWaitLockAcquire Context)).2 Level AtRate ResultValue).Status
  · simp
  · cases hb : (AstonBatteryQueryInformationSwitch
        (LoadBatteryTag (WdfWaitLockAcquire Context)).2 Level AtRate ResultValue).ReturnBuffer
    · simp
    · by_cases hc : Buffer = none ∨ BufferLength < (AstonBatteryQueryInformationSwitch
          (LoadBatteryTag (WdfWaitLockAcquire Context)).2 Level AtRate
          ResultValue).ReturnBufferLength
      · simp [hc]
      · simp [hc]

/-- C17: with a matching tag, the register reads of `AstonBatteryQueryInformation` are an
initial segment of the reads planned for the level (`ReadPlan`), at least one when the
level reads registers (`BatteryInformation`, `BatteryEstimatedTime` with `AtRate == 0`,
`BatteryGranularityInformation`, `BatteryTemperature`); they are all the routine does
between the tag comparison and the release of the lock.  When the reply to one of the
reads issued is a failure status, that read is the last one issued, the routine returns
exactly that status, `*ReturnedLength` is 0 and the caller's buffer is as it was. -/
theorem C17_read_failure_aborts_query (Context : SURFACE_BATTERY_FDO_DATA)
    (Level AtRate : Int) (Buffer : Option Region)
    (BufferLength ReturnedLength ResultValue : Nat) :
    ∃ Addresses : List Nat,
      Addresses <+: ReadPlan Level AtRate ∧
      (ReadPlan Level AtRate ≠ [] → Addresses ≠ []) ∧
      (AstonBatteryQueryInformation Context Context.BatteryTag Level AtRate Buffer
        BufferLength ReturnedLength ResultValue).DevExt.Trace =
        Context.Trace ++ [.LockAcquire, .TagRead] ++
          Addresses.map (fun a => Event.SpbRead a 2) ++ [.LockRelease] ∧
      (AstonBatteryQueryInformation Context Context.BatteryTag Level AtRate Buffer
        BufferLength ReturnedLength ResultValue).DevExt.I2CContext.Reads =
        Context.I2CContext.Reads + Addresses.length ∧
      ∀ k a, Addresses[k]? = some a →
        NT_SUCCESS (Context.I2CContext.Device (Context.I2CContext.Reads + k) a).Status
          = false →
        (AstonBatteryQueryInformation Context Context.BatteryTag Level AtRate Buffer
          BufferLength ReturnedLength ResultValue).Status =
          (Context.I2CContext.Device (Context.I2CContext.Reads + k) a).Status ∧
        k + 1 = Addresses.length ∧
        (AstonBatteryQueryInformation Context Context.BatteryTag Level AtRate Buffer
          BufferLength ReturnedLength ResultValue).ReturnedLength = 0 ∧
        (AstonBatteryQueryInformation Context Context.BatteryTag Level AtRate Buffer
          BufferLength ReturnedLength ResultValue).Buffer = Buffer := by
  obtain ⟨Addresses, hp, hne, hD, hall, _⟩ :=
    Switch_reads (LoadBatteryTag (WdfWaitLockAcquire Context)).2 Level AtRate ResultValue
  obtain ⟨hDev, hFail, _⟩ := QueryInformation_after_exit Context Level AtRate Buffer
    BufferLength ReturnedLength ResultValue
  refine ⟨Addresses, hp, hne, ?_, ?_, ?_⟩
  · rw [hDev, hD]
    simp [WdfWaitLockRelease, WdfWaitLockAcquire, LoadBatteryTag, Record]
  · rw [hDev, hD]
    simp [WdfWaitLockRelease, WdfWaitLockAcquire, LoadBatteryTag, Record]
  · intro k a hk hf
    have h1 := hall k a hk hf
    have h2 : NT_SUCCESS (AstonBatteryQueryInformationSwitch
        (LoadBatteryTag (WdfWaitLockAcquire Context)).2 Level AtRate ResultValue).Status
        = false := by
      rw [h1.1]; exact hf
    obtain ⟨g1, g2, g3⟩ := hFail h2
    exact ⟨g1.trans h1.1, h1.2, g2, g3⟩

/-- C17 at a concrete input: on a gauge whose every read fails with
`STATUS_IO_DEVICE_ERROR`, the level `BatteryInformation` returns that status, with
returned length 0 (it held 7) and the buffer as it was. -/
theorem C17_read_failure_witness :
    (AstonBatteryQueryInformation (SampleDevice DeadGauge) 1 BatteryInformation 0
      (some (.Raw [])) 36 7 0).Status = STATUS_IO_DEVICE_ERROR ∧
    (AstonBatteryQueryInformation (SampleDevice DeadGauge) 1 BatteryInformation 0
      (some (.Raw [])) 36 7 0).ReturnedLength = 0 ∧
    (AstonBatteryQueryInformation (SampleDevice DeadGauge) 1 BatteryInformation 0
      (some (.Raw [])) 36 7 0).Buffer = some (.Raw []) := by
  obtain ⟨Addresses, hp, hne, _, _, hall⟩ := C17_read_failure_aborts_query
    (SampleDevice DeadGauge) BatteryInformation 0 (some (.Raw [])) 36 7 0
  have hplan : ReadPlan BatteryInformation 0 = [0x3C, 0x12, 0x2A] := by decide
  rw [hplan] at hp hne
  have hA : Addresses[0]? = some 0x3C := by
    rcases Addresses with _ | ⟨a, t⟩
    · exact absurd rfl (hne (by simp))
    · obtain ⟨t', ht'⟩ := hp
      simp at ht'
      simp [ht'.1]
  obtain ⟨g1, _, g2, g3⟩ := hall 0 0x3C hA (by decide)
  exact ⟨g1, g2, g3⟩

/-- What `AstonBatteryQueryTag` reports and leaves behind: the tag of the device
extension, which it does not change, and a status decided by the test against
`BATTERY_TAG_INVALID`. -/
theorem AstonBatteryQueryTag_eq (Context : SURFACE_BATTERY_FDO_DATA) :
    (AstonBatteryQueryTag Context).BatteryTag = Context.BatteryTag ∧
    (AstonBatteryQueryTag Context).DevExt.BatteryTag = Context.BatteryTag ∧
    (AstonBatteryQueryTag Context).Status =
      (if Context.BatteryTag = BATTERY_TAG_INVALID then STATUS_NO_SUCH_DEVICE
       else STATUS_SUCCESS) := by
  by_cases h : Context.BatteryTag = BATTERY_TAG_INVALID <;>
    simp [AstonBatteryQueryTag, WdfWaitLockAcquire, WdfWaitLockRelease, LoadBatteryTag,
      Record, h]

/-- The tag `AstonBatteryPrepareHardware` leaves is not `BATTERY_TAG_INVALID`. -/
theorem AstonBatteryPrepareHardware_tag (Device : SURFACE_BATTERY_FDO_DATA) :
    (AstonBatteryPrepareHardware Device).BatteryTag ≠ BATTERY_TAG_INVALID := by
  have h := AstonBatteryUpdateTag_ne_invalid (WdfWaitLockAcquire Device)
  simpa [AstonBatteryPrepareHardware, WdfWaitLockRelease, Record] using h

/-- A request that carries the tag of the device extension gets past the tag comparison
of the four tag-gated callbacks, and it shows: `AstonBatterySetStatusNotify` answers
`STATUS_NOT_SUPPORTED`, `AstonBatterySetInformation` does not answer
`STATUS_NO_SUCH_DEVICE`, `AstonBatteryQueryStatus` issues a register read, and
`AstonBatteryQueryInformation` issues a register read or answers something other than
`STATUS_NO_SUCH_DEVICE`. -/
theorem current_tag_accepted (Context : SURFACE_BATTERY_FDO_DATA)
    (Level AtRate SetLevel : Int) (Buffer Payload BatteryNotify : Option Region)
    (BufferLength ReturnedLength ResultValue : Nat) (BatteryStatus : BATTERY_STATUS) :
    (AstonBatterySetStatusNotify Context Context.BatteryTag BatteryNotify).Status =
      STATUS_NOT_SUPPORTED ∧
    (AstonBatterySetInformation Context Context.BatteryTag SetLevel Payload).Status ≠
      STATUS_NO_SUCH_DEVICE ∧
    Context.I2CContext.Reads <
      (AstonBatteryQueryStatus Context Context.BatteryTag
        BatteryStatus).DevExt.I2CContext.Reads ∧
    ((AstonBatteryQueryInformation Context Context.BatteryTag Level AtRate Buffer
        BufferLength ReturnedLength ResultValue).Status ≠ STATUS_NO_SUCH_DEVICE ∨
      Context.I2CContext.Reads <
        (AstonBatteryQueryInformation Context Context.BatteryTag Level AtRate Buffer
          BufferLength ReturnedLength ResultValue).DevExt.I2CContext.Reads) := by
  refine ⟨?_, ?_, ?_, ?_⟩
  · simp [AstonBatterySetStatusNotify, WdfWaitLockAcquire, LoadBatteryTag, Record]
  · have n1 : STATUS_SUCCESS ≠ STATUS_NO_SUCH_DEVICE := by decide
    have n2 : STATUS_INVALID_PARAMETER_4 ≠ STATUS_NO_SUCH_DEVICE := by decide
    have n3 : STATUS_NOT_SUPPORTED ≠ STATUS_NO_SUCH_DEVICE := by decide
    simp only [AstonBatterySetInformation, WdfWaitLockAcquire, LoadBatteryTag, Record, ne_eq,
      not_true_eq_false, if_false]
    repeat' split
    all_goals first | exact n1 | exact n2 | exact n3
  · simp only [AstonBatteryQueryStatus, WdfWaitLockAcquire, WdfWaitLockRelease,
      LoadBatteryTag, Record, SpbReadDataSynchronously, ne_eq, not_true_eq_false, if_false]
    repeat' split
    all_goals first | omega | (simp; done) | (simp; omega)
  · obtain ⟨Addresses, _, _, hD, _, hnone⟩ :=
      Switch_reads (LoadBatteryTag (WdfWaitLockAcquire Context)).2 Level AtRate ResultValue
    obtain ⟨hDev, hFail, hOk⟩ := QueryInformation_after_exit Context Level AtRate Buffer
      BufferLength ReturnedLength ResultValue
    rcases Addresses with _ | ⟨a, t⟩
    · left
      have n1 : STATUS_SUCCESS ≠ STATUS_NO_SUCH_DEVICE := by decide
      have n2 : STATUS_INVALID_PARAMETER ≠ STATUS_NO_SUCH_DEVICE := by decide
      have n3 : STATUS_BUFFER_TOO_SMALL ≠ STATUS_NO_SUCH_DEVICE := by decide
      rcases hnone rfl with hs | hs
      · rcases hOk (by rw [hs]; exact NT_SUCCESS_STATUS_SUCCESS) with g | g
        · rw [g, hs]; exact n1
        · rw [g]; exact n3
      · rw [(hFail (by rw [hs]; exact NT_SUCCESS_STATUS_INVALID_PARAMETER)).1, hs]
        exact n2
    · right
      rw [hDev, hD]
      simp [WdfWaitLockRelease, WdfWaitLockAcquire, LoadBatteryTag, Record]

/-- C19: `AstonBatteryQueryTag` stores `DevExt->BatteryTag` in `*BatteryTag` and returns
`STATUS_NO_SUCH_DEVICE` exactly when that tag is `BATTERY_TAG_INVALID`, `STATUS_SUCCESS`
otherwise.  After `AstonBatteryPrepareHardware`, from every device extension,
`AstonBatteryQueryTag` returns `STATUS_SUCCESS` and reports the tag the device extension
holds, and a request carrying that tag gets past the tag comparison of
`AstonBatteryQueryInformation`, `AstonBatteryQueryStatus`, `AstonBatterySetInformation`
and `AstonBatterySetStatusNotify` (see `current_tag_accepted` for what is observed). -/
theorem C19_query_tag_after_prepare_hardware (Context Device : SURFACE_BATTERY_FDO_DATA)
    (Level AtRate SetLevel : Int) (Buffer Payload BatteryNotify : Option Region)
    (BufferLength ReturnedLength ResultValue : Nat) (BatteryStatus : BATTERY_STATUS) :
    ((AstonBatteryQueryTag Context).BatteryTag = Context.BatteryTag ∧
     ((AstonBatteryQueryTag Context).Status = STATUS_NO_SUCH_DEVICE ↔
        Context.BatteryTag = BATTERY_TAG_INVALID) ∧
     ((AstonBatteryQueryTag Context).Status = STATUS_SUCCESS ↔
        Context.BatteryTag ≠ BATTERY_TAG_INVALID)) ∧
    (AstonBatteryQueryTag (AstonBatteryPrepareHardware Device)).Status = STATUS_SUCCESS ∧
    (AstonBatteryQueryTag (AstonBatteryPrepareHardware Device)).BatteryTag =
      (AstonBatteryQueryTag (AstonBatteryPrepareHardware Device)).DevExt.BatteryTag ∧
    (AstonBatterySetStatusNotify (AstonBatteryQueryTag (AstonBatteryPrepareHardware
        Device)).DevExt (AstonBatteryQueryTag (AstonBatteryPrepareHardware Device)).BatteryTag
        BatteryNotify).Status = STATUS_NOT_SUPPORTED ∧
    (AstonBatterySetInformation (AstonBatteryQueryTag (AstonBatteryPrepareHardware
        Device)).DevExt (AstonBatteryQueryTag (AstonBatteryPrepareHardware Device)).BatteryTag
        SetLevel Payload).Status ≠ STATUS_NO_SUCH_DEVICE ∧
    (AstonBatteryQueryTag (AstonBatteryPrepareHardware Device)).DevExt.I2CContext.Reads <
      (AstonBatteryQueryStatus (AstonBatteryQueryTag (AstonBatteryPrepareHardware
        Device)).DevExt (AstonBatteryQueryTag (AstonBatteryPrepareHardware Device)).BatteryTag
        BatteryStatus).DevExt.I2CContext.Reads ∧
    ((AstonBatteryQueryInformation (AstonBatteryQueryTag (AstonBatteryPrepareHardware
        Device)).DevExt (AstonBatteryQueryTag (AstonBatteryPrepareHardware Device)).BatteryTag
        Level AtRate Buffer BufferLength ReturnedLength ResultValue).Status ≠
        STATUS_NO_SUCH_DEVICE ∨
      (AstonBatteryQueryTag (AstonBatteryPrepareHardware Device)).DevExt.I2CContext.Reads <
        (AstonBatteryQueryInformation (AstonBatteryQueryTag (AstonBatteryPrepareHardware
          Device)).DevExt
          (AstonBatteryQueryTag (AstonBatteryPrepareHardware Device)).BatteryTag
          Level AtRate Buffer BufferLength ReturnedLength
          ResultValue).DevExt.I2CContext.Reads) := by
  obtain ⟨c1, _, c3⟩ := AstonBatteryQueryTag_eq Context
  obtain ⟨p1, p2, p3⟩ := AstonBatteryQueryTag_eq (AstonBatteryPrepareHardware Device)
  have hT := AstonBatteryPrepareHardware_tag Device
  have hEq : (AstonBatteryQueryTag (AstonBatteryPrepareHardware Device)).BatteryTag =
      (AstonBatteryQueryTag (AstonBatteryPrepareHardware Device)).DevExt.BatteryTag := by
    rw [p1, p2]
  have hAcc := current_tag_accepted
    (AstonBatteryQueryTag (AstonBatteryPrepareHardware Device)).DevExt Level AtRate SetLevel
    Buffer Payload BatteryNotify BufferLength ReturnedLength ResultValue BatteryStatus
  rw [← hEq] at hAcc
  refine ⟨⟨c1, ?_, ?_⟩, ?_, hEq, hAcc.1, hAcc.2.1, hAcc.2.2.1, hAcc.2.2.2⟩
  · rw [c3]
    by_cases h : Context.BatteryTag = BATTERY_TAG_INVALID
    · simp [h]
    · simp only [h, if_false, iff_false]; decide
  · rw [c3]
    by_cases h : Context.BatteryTag = BATTERY_TAG_INVALID
    · simp only [h, if_true, ne_eq, not_true_eq_false, iff_false]; decide
    · simp [h]
  · rw [p3, if_neg hT]

/-- C21, evaluated where it fails: two calls of `AstonBatteryQueryStatus` with tag 1
matching on the sample gauge (rate register 5, every read succeeds) that differ only in
the prior content of the caller's `Rate` field, 0 and `0x12340000`.  Both succeed; the
first leaves `Rate = 5`, the second `Rate = 0x12340005`: the two-byte read replaces the
low half of the field and the high half keeps what the caller had there. -/
theorem C21_rate_keeps_stale_upper_half :
    (AstonBatteryQueryStatus (SampleDevice SampleGauge) 1
      { PowerState := 0, Capacity := 0, Voltage := 0, Rate := 0 }).Status = STATUS_SUCCESS ∧
    (AstonBatteryQueryStatus (SampleDevice SampleGauge) 1
      { PowerState := 0, Capacity := 0, Voltage := 0, Rate := 0x12340000 }).Status =
        STATUS_SUCCESS ∧
    (AstonBatteryQueryStatus (SampleDevice SampleGauge) 1
      { PowerState := 0, Capacity := 0, Voltage := 0, Rate := 0 }).BatteryStatus =
        { PowerState := BATTERY_DISCHARGING, Capacity := 1800, Voltage := 4000, Rate := 5 } ∧
    (AstonBatteryQueryStatus (SampleDevice SampleGauge) 1
      { PowerState := 0, Capacity := 0, Voltage := 0, Rate := 0x12340000 }).BatteryStatus =
        { PowerState := BATTERY_DISCHARGING, Capacity := 1800, Voltage := 4000,
          Rate := 0x12340005 } ∧
    (AstonBatteryQueryStatus (SampleDevice SampleGauge) 1
      { PowerState := 0, Capacity := 0, Voltage := 0, Rate := 0 }).BatteryStatus ≠
    (AstonBatteryQueryStatus (SampleDevice SampleGauge) 1
      { PowerState := 0, Capacity := 0, Voltage := 0, Rate := 0x12340000 }).BatteryStatus := by
  decide

/-- C22: whatever the level, the rate argument, the gauge and the content of the
uninitialised local, the state in which `AstonBatteryQueryInformation` reaches its label
`Exit` satisfies the condition of the `NT_ASSERT` there: `ReturnBuffer` and
`ReturnBufferLength` are both empty or both populated.  When the status is a failure they
are `NULL` and 0; when it is a success, which only a recognised level reaches,
`ReturnBuffer` is not `NULL` and `ReturnBufferLength` is positive. -/
theorem C22_exit_assertion_holds (DevExt : SURFACE_BATTERY_FDO_DATA) (Level AtRate : Int)
    (ResultValue : Nat) :
    ExitAssertion (AstonBatteryQueryInformationSwitch DevExt Level AtRate
        ResultValue).ReturnBuffer
      (AstonBatteryQueryInformationSwitch DevExt Level AtRate
        ResultValue).ReturnBufferLength = true ∧
    (NT_SUCCESS (AstonBatteryQueryInformationSwitch DevExt Level AtRate ResultValue).Status
        = false →
      (AstonBatteryQueryInformationSwitch DevExt Level AtRate ResultValue).ReturnBuffer
        = none ∧
      (AstonBatteryQueryInformationSwitch DevExt Level AtRate
        ResultValue).ReturnBufferLength = 0) ∧
    (NT_SUCCESS (AstonBatteryQueryInformationSwitch DevExt Level AtRate ResultValue).Status
        = true →
      (AstonBatteryQueryInformationSwitch DevExt Level AtRate ResultValue).ReturnBuffer
        ≠ none ∧
      0 < (AstonBatteryQueryInformationSwitch DevExt Level AtRate
        ResultValue).ReturnBufferLength ∧
      (Level = BatteryInformation ∨ Level = BatteryEstimatedTime ∨
        Level = BatteryUniqueID ∨ Level = BatteryManufactureName ∨
        Level = BatteryDeviceName ∨ Level = BatterySerialNumber ∨
        Level = BatteryManufactureDate ∨ Level = BatteryGranularityInformation ∨
        Level = BatteryTemperature)) := by
  have hRec : NT_SUCCESS (AstonBatteryQueryInformationSwitch DevExt Level AtRate
      ResultValue).Status = true →
      (Level = BatteryInformation ∨ Level = BatteryEstimatedTime ∨
        Level = BatteryUniqueID ∨ Level = BatteryManufactureName ∨
        Level = BatteryDeviceName ∨ Level = BatterySerialNumber ∨
        Level = BatteryManufactureDate ∨ Level = BatteryGranularityInformation ∨
        Level = BatteryTemperature) := by
    intro hs
    by_contra hno
    simp only [not_or] at hno
    obtain ⟨h0, h1, h2, h3, h4, h5, h6, h7, h8⟩ := hno
    simp only [AstonBatteryQueryInformationSwitch, if_neg h0, if_neg h1, if_neg h2,
      if_neg h3, if_neg h4, if_neg h5, if_neg h6, if_neg h7, if_neg h8,
      NT_SUCCESS_STATUS_INVALID_PARAMETER] at hs
    exact absurd hs (by decide)
  rcases Switch_exit_shape DevExt Level AtRate ResultValue with
    ⟨hs, ⟨Source, hSrc⟩, hPos, _⟩ | ⟨hf, hNone, hZero⟩
  · refine ⟨?_, ?_, ?_⟩
    · rw [hSrc]
      simp [ExitAssertion, hPos]
    · intro hf
      rw [hs] at hf
      exact absurd hf (by decide)
    · intro _
      exact ⟨by rw [hSrc]; simp, hPos, hRec hs⟩
  · refine ⟨?_, ?_, ?_⟩
    · rw [hNone, hZero]
      rfl
    · intro _
      exact ⟨hNone, hZero⟩
    · intro hs
      rw [hf] at hs
      exact absurd hs (by decide)

/-- C22 at concrete inputs: on a gauge whose every read fails the level
`BatteryInformation` reaches `Exit` with `NULL` and 0; on the sample gauge it reaches
`Exit` with a result of 36 bytes. -/
theorem C22_exit_assertion_witness :
    ((AstonBatteryQueryInformationSwitch (SampleDevice DeadGauge) BatteryInformation 0
        0).ReturnBuffer = none ∧
     (AstonBatteryQueryInformationSwitch (SampleDevice DeadGauge) BatteryInformation 0
        0).ReturnBufferLength = 0) ∧
    ((AstonBatteryQueryInformationSwitch (SampleDevice SampleGauge) BatteryInformation 0
        0).ReturnBuffer ≠ none ∧
     0 < (AstonBatteryQueryInformationSwitch (SampleDevice SampleGauge) BatteryInformation 0
        0).ReturnBufferLength) :=
  ⟨(C22_exit_assertion_holds (SampleDevice DeadGauge) BatteryInformation 0 0).2.1
      (by decide),
   ((C22_exit_assertion_holds (SampleDevice SampleGauge) BatteryInformation 0 0).2.2
      (by decide)).1,
   ((C22_exit_assertion_holds (SampleDevice SampleGauge) BatteryInformation 0 0).2.2
      (by decide)).2.1⟩

/-- Register reads do not change the outcome of the replay while the lock is held. -/
theorem CheckGuard_reads (Addresses : List Nat) (Rest : List Event) :
    CheckGuard true (Addresses.map (fun a => Event.SpbRead a 2) ++ Rest) =
      CheckGuard true Rest := by
  induction Addresses with
  | nil => rfl
  | cons a t ih => simpa [CheckGuard] using ih

/-- Register reads are neither acquisitions nor releases of the lock. -/
theorem count_reads (Addresses : List Nat) :
    (Addresses.map (fun a => Event.SpbRead a 2)).count Event.LockAcquire = 0 ∧
    (Addresses.map (fun a => Event.SpbRead a 2)).count Event.LockRelease = 0 := by
  induction Addresses with
  | nil => exact ⟨rfl, rfl⟩
  | cons a t ih => simpa [List.count_cons] using ih

/-- The guard discipline of `AstonBatteryPrepareHardware`. -/
theorem PrepareHardware_guard (Context : SURFACE_BATTERY_FDO_DATA)
    (hLock : Context.StateLock = false) :
    GuardDiscipline Context (AstonBatteryPrepareHardware Context) := by
  by_cases h : (Context.BatteryTag + 1) % ULONG_MOD = BATTERY_TAG_INVALID
  · refine ⟨[.LockAcquire, .TagRead, .TagWrite, .TagRead, .TagRead, .TagWrite,
      .LockRelease], ?_, by rw [hLock]; rfl, by decide, by decide, ?_⟩ <;>
    simp [AstonBatteryPrepareHardware, AstonBatteryUpdateTag, WdfWaitLockAcquire,
      WdfWaitLockRelease, LoadBatteryTag, StoreBatteryTag, Record, h]
  · refine ⟨[.LockAcquire, .TagRead, .TagWrite, .TagRead, .LockRelease], ?_,
      by rw [hLock]; rfl, by decide, by decide, ?_⟩ <;>
    simp [AstonBatteryPrepareHardware, AstonBatteryUpdateTag, WdfWaitLockAcquire,
      WdfWaitLockRelease, LoadBatteryTag, StoreBatteryTag, Record, h]

/-- The guard discipline of `AstonBatteryQueryTag`. -/
theorem QueryTag_guard (Context : SURFACE_BATTERY_FDO_DATA)
    (hLock : Context.StateLock = false) :
    GuardDiscipline Context (AstonBatteryQueryTag Context).DevExt := by
  refine ⟨[.LockAcquire, .TagRead, .LockRelease], ?_, by rw [hLock]; rfl, by decide,
    by decide, ?_⟩ <;>
  by_cases h : Context.BatteryTag = BATTERY_TAG_INVALID <;>
  simp [AstonBatteryQueryTag, WdfWaitLockAcquire, WdfWaitLockRelease, LoadBatteryTag,
    Record, h]

/-- The guard discipline of `AstonBatterySetInformation` and
`AstonBatterySetStatusNotify`. -/
theorem Set_guard (Context : SURFACE_BATTERY_FDO_DATA) (hLock : Context.StateLock = false)
    (BatteryTag : Nat) (SetLevel : Int) (Payload BatteryNotify : Option Region) :
    GuardDiscipline Context
      (AstonBatterySetInformation Context BatteryTag SetLevel Payload).DevExt ∧
    GuardDiscipline Context
      (AstonBatterySetStatusNotify Context BatteryTag BatteryNotify).DevExt := by
  constructor
  · refine ⟨[.LockAcquire, .TagRead, .LockRelease], ?_, by rw [hLock]; rfl, by decide,
      by decide, ?_⟩ <;>
    by_cases h : BatteryTag = Context.BatteryTag <;>
    simp [AstonBatterySetInformation, WdfWaitLockAcquire, WdfWaitLockRelease,
      LoadBatteryTag, Record, h]
  · refine ⟨[.LockAcquire, .TagRead, .LockRelease], ?_, by rw [hLock]; rfl, by decide,
      by decide, ?_⟩ <;>
    by_cases h : BatteryTag = Context.BatteryTag <;>
    simp [AstonBatterySetStatusNotify, WdfWaitLockAcquire, WdfWaitLockRelease,
      LoadBatteryTag, Record, h]

/-- The guard discipline of `AstonBatteryQueryStatus`, on every return path. -/
theorem QueryStatus_guard (Context : SURFACE_BATTERY_FDO_DATA)
    (hLock : Context.StateLock = false) (BatteryTag : Nat) (BatteryStatus : BATTERY_STATUS) :
    GuardDiscipline Context
      (AstonBatteryQueryStatus Context BatteryTag BatteryStatus).DevExt := by
  by_cases h : BatteryTag = Context.BatteryTag
  swap
  · refine ⟨[.LockAcquire, .TagRead, .LockRelease], ?_, by rw [hLock]; rfl, by decide,
      by decide, ?_⟩ <;>
    simp [AstonBatteryQueryStatus, WdfWaitLockAcquire, WdfWaitLockRelease, LoadBatteryTag,
      Record, h]
  cases h1 : NT_SUCCESS (Context.I2CContext.Device Context.I2CContext.Reads 0x0C).Status
  · refine ⟨[.LockAcquire, .TagRead, .SpbRead 0x0C 2, .LockRelease], ?_,
      by rw [hLock]; rfl, by decide, by decide, ?_⟩ <;>
    simp [AstonBatteryQueryStatus, SpbReadDataSynchronously, WdfWaitLockAcquire,
      WdfWaitLockRelease, LoadBatteryTag, Record, h, h1]
  cases h2 : NT_SUCCESS (Context.I2CContext.Device (Context.I2CContext.Reads + 1) 0x08).Status
  · refine ⟨[.LockAcquire, .TagRead, .SpbRead 0x0C 2, .SpbRead 0x08 2, .LockRelease], ?_,
      by rw [hLock]; rfl, by decide, by decide, ?_⟩ <;>
    simp [AstonBatteryQueryStatus, SpbReadDataSynchronously, WdfWaitLockAcquire,
      WdfWaitLockRelease, LoadBatteryTag, Record, h, h1, h2]
  cases h3 : NT_SUCCESS (Context.I2CContext.Device (Context.I2CContext.Reads + 2) 0x10).Status
  · refine ⟨[.LockAcquire, .TagRead, .SpbRead 0x0C 2, .SpbRead 0x08 2, .SpbRead 0x10 2,
      .LockRelease], ?_, by rw [hLock]; rfl, by decide, by decide, ?_⟩ <;>
    simp [AstonBatteryQueryStatus, SpbReadDataSynchronously, WdfWaitLockAcquire,
      WdfWaitLockRelease, LoadBatteryTag, Record, h, h1, h2, h3]
  · refine ⟨[.LockAcquire, .TagRead, .SpbRead 0x0C 2, .SpbRead 0x08 2, .SpbRead 0x10 2,
      .LockRelease], ?_, by rw [hLock]; rfl, by decide, by decide, ?_⟩ <;>
    simp [AstonBatteryQueryStatus, SpbReadDataSynchronously, WdfWaitLockAcquire,
      WdfWaitLockRelease, LoadBatteryTag, Record, h, h1, h2, h3]

/-- The guard discipline of `AstonBatteryQueryInformation`, on every return path. -/
theorem QueryInformation_guard (Context : SURFACE_BATTERY_FDO_DATA)
    (hLock : Context.StateLock = false) (BatteryTag : Nat) (Level AtRate : Int)
    (Buffer : Option Region) (BufferLength ReturnedLength ResultValue : Nat) :
    GuardDiscipline Context
      (AstonBatteryQueryInformation Context BatteryTag Level AtRate Buffer BufferLength
        ReturnedLength ResultValue).DevExt := by
  by_cases h : BatteryTag = Context.BatteryTag
  swap
  · refine ⟨[.LockAcquire, .TagRead, .LockRelease], ?_, by rw [hLock]; rfl, by decide,
      by decide, ?_⟩ <;>
    simp [AstonBatteryQueryInformation, WdfWaitLockAcquire, WdfWaitLockRelease,
      LoadBatteryTag, Record, h]
  subst h
  obtain ⟨Addresses, _, _, hD, _, _⟩ :=
    Switch_reads (LoadBatteryTag (WdfWaitLockAcquire Context)).2 Level AtRate ResultValue
  obtain ⟨hDev, _, _⟩ := QueryInformation_after_exit Context Level AtRate Buffer
    BufferLength ReturnedLength ResultValue
  refine ⟨.LockAcquire :: .TagRead :: (Addresses.map (fun a => Event.SpbRead a 2) ++
    [.LockRelease]), ?_, ?_, ?_, ?_, ?_⟩
  · rw [hDev, hD]
    simp [WdfWaitLockRelease, WdfWaitLockAcquire, LoadBatteryTag, Record]
  · rw [hLock]
    show CheckGuard true (Addresses.map (fun a => Event.SpbRead a 2) ++ [.LockRelease]) =
      some false
    rw [CheckGuard_reads]
    rfl
  · simp [List.count_cons, (count_reads Addresses).1]
  · simp [List.count_cons, (count_reads Addresses).2]
  · rw [hDev]
    simp [WdfWaitLockRelease, Record]

/-- C23: with the lock free on entry, each of `AstonBatteryPrepareHardware`,
`AstonBatteryQueryTag`, `AstonBatteryQueryInformation`, `AstonBatteryQueryStatus`,
`AstonBatterySetInformation` and `AstonBatterySetStatusNotify` keeps the guard
discipline on every return path, for every tag, level, gauge and buffer: the lock is
acquired once and released once, it is free on return, and every register read and every
read or write of `BatteryTag` lies between the acquisition and the release. -/
theorem C23_guard_discipline (Context : SURFACE_BATTERY_FDO_DATA)
    (hLock : Context.StateLock = false) (BatteryTag : Nat) (Level AtRate SetLevel : Int)
    (Buffer Payload BatteryNotify : Option Region)
    (BufferLength ReturnedLength ResultValue : Nat) (BatteryStatus : BATTERY_STATUS) :
    GuardDiscipline Context (AstonBatteryPrepareHardware Context) ∧
    GuardDiscipline Context (AstonBatteryQueryTag Context).DevExt ∧
    GuardDiscipline Context
      (AstonBatteryQueryInformation Context BatteryTag Level AtRate Buffer BufferLength
        ReturnedLength ResultValue).DevExt ∧
    GuardDiscipline Context
      (AstonBatteryQueryStatus Context BatteryTag BatteryStatus).DevExt ∧
    GuardDiscipline Context
      (AstonBatterySetInformation Context BatteryTag SetLevel Payload).DevExt ∧
    GuardDiscipline Context
      (AstonBatterySetStatusNotify Context BatteryTag BatteryNotify).DevExt :=
  ⟨PrepareHardware_guard Context hLock, QueryTag_guard Context hLock,
   QueryInformation_guard Context hLock BatteryTag Level AtRate Buffer BufferLength
     ReturnedLength ResultValue,
   QueryStatus_guard Context hLock BatteryTag BatteryStatus,
   (Set_guard Context hLock BatteryTag SetLevel Payload BatteryNotify).1,
   (Set_guard Context hLock BatteryTag SetLevel Payload BatteryNotify).2⟩

/-- C23 at a concrete input: the sample device, whose lock is free, with the matching
tag 1, the level `BatteryInformation` and a gauge whose voltage read fails. -/
theorem C23_guard_discipline_witness :
    (SampleDevice VoltageFailGauge).StateLock = false ∧
    GuardDiscipline (SampleDevice VoltageFailGauge)
      (AstonBatteryPrepareHardware (SampleDevice VoltageFailGauge)) ∧
    GuardDiscipline (SampleDevice VoltageFailGauge)
      (AstonBatteryQueryInformation (SampleDevice VoltageFailGauge) 1 BatteryInformation 0
        (some (.Raw [])) 36 0 0).DevExt ∧
    GuardDiscipline (SampleDevice VoltageFailGauge)
      (AstonBatteryQueryStatus (SampleDevice VoltageFailGauge) 1 ⟨0, 0, 0, 0⟩).DevExt :=
  have h := C23_guard_discipline (SampleDevice VoltageFailGauge) rfl 1 BatteryInformation 0
    BatteryCharge (some (.Raw [])) none none 36 0 0 ⟨0, 0, 0, 0⟩
  ⟨rfl, h.1, h.2.2.1, h.2.2.2.1⟩

end AstonBattery
